import Mathlib

/-!
Command descriptors and connection of the key-value client (couchnode /
libcouchbase)

Shallow embedding of `deps/lcb/src/capi/cmd_counter.hh`,
`deps/lcb/src/capi/cmd_get_replica.hh`, `src/connection.cpp` and the
cancellation and teardown tests of `deps/lcb/tests/iotests/t_http.cc`.

Conventions of the embedding.

* A C++ member function that mutates `*this` and returns `lcb_STATUS` becomes a
  function `state → args → lcb_STATUS × state`.
* The C++ sources overload one name for a setter and its `const` getter
  (`expiry(e)` and `expiry() const`).  The setter keeps the name; the getter
  carries the suffix `_const`.
* `std::uint32_t` / `std::uint64_t` values are natural numbers, `int` /
  `std::int64_t` values are integers.  A conversion between integer types that
  the source performs is written out with `toInt64`, `toUInt64`, `toUInt32`.
* `std::chrono::microseconds` and `std::chrono::nanoseconds` are tick counts
  held in a signed 64-bit representation; a change of unit multiplies the
  count in that representation.
-/

/-! ## Machine integers -/

/-- Conversion of an integer to a signed 64-bit value (two's complement wrap). -/
def toInt64 (x : Int) : Int := (x + 2 ^ 63) % 2 ^ 64 - 2 ^ 63

/-- Conversion of an integer to `std::uint64_t` (reduction modulo `2^64`). -/
def toUInt64 (x : Int) : Nat := (x % 2 ^ 64).toNat

/-- Conversion of an integer to `std::uint32_t` (reduction modulo `2^32`),
as done by `static_cast<std::uint32_t>`. -/
def toUInt32 (x : Int) : Nat := (x % 2 ^ 32).toNat

/-! ## Types declared outside the embedded headers -/

/-- Modelled from the spec: the status enumeration `lcb_STATUS` is declared in
the public libcouchbase header, which is not part of the sources.  The two
values the command descriptors return are `LCB_SUCCESS` and
`LCB_ERR_OPTIONS_CONFLICT` (the spec's `OptionsConflict`). -/
inductive lcb_STATUS where
  | LCB_SUCCESS
  | LCB_ERR_OPTIONS_CONFLICT
  deriving DecidableEq, Repr

/-- Modelled from the spec: the enumeration `lcb_DURABILITY_LEVEL` is declared
in the public libcouchbase header, which is not part of the sources.  The spec
lists the levels none / majority / majority-and-persist / persist-to-majority. -/
inductive lcb_DURABILITY_LEVEL where
  | LCB_DURABILITYLEVEL_NONE
  | LCB_DURABILITYLEVEL_MAJORITY
  | LCB_DURABILITYLEVEL_MAJORITY_AND_PERSIST_TO_ACTIVE
  | LCB_DURABILITYLEVEL_PERSIST_TO_MAJORITY
  deriving DecidableEq, Repr

/-- Modelled from the spec: `lcb::collection_qualifier` is declared in
`collection_qualifier.hh`, which is not part of the sources.  The spec
describes it as a scope name plus a collection name, or the default. -/
structure collection_qualifier where
  scope_ : String := ""
  collection_ : String := ""
  deriving DecidableEq, Repr

/-! ## `lcb_CMDCOUNTER_` -/

/-- The private data members of `struct lcb_CMDCOUNTER_`, with their default
member initialisers.  Pointers (`parent_span_`, `cookie_`) are addresses, `0`
standing for `nullptr`. -/
structure lcb_CMDCOUNTER_ where
  collection_ : collection_qualifier := {}
  expiry_ : Nat := 0
  initial_value_ : Nat := 0
  delta_ : Int := 0
  timeout_ : Int := 0
  start_time_ : Int := 0
  parent_span_ : Nat := 0
  cookie_ : Nat := 0
  key_ : String := ""
  initialize_if_does_not_exist_ : Bool := false
  durability_level_ : lcb_DURABILITY_LEVEL := lcb_DURABILITY_LEVEL.LCB_DURABILITYLEVEL_NONE
  deriving DecidableEq, Repr

namespace lcb_CMDCOUNTER_

/-- A default-constructed counter command. -/
def fresh : lcb_CMDCOUNTER_ := {}

/-- Setter `lcb_STATUS expiry(std::uint32_t expiry)`. -/
def expiry (c : lcb_CMDCOUNTER_) (expiry : Nat) : lcb_STATUS × lcb_CMDCOUNTER_ :=
  if !c.initialize_if_does_not_exist_ then
    (lcb_STATUS.LCB_ERR_OPTIONS_CONFLICT, c)
  else
    (lcb_STATUS.LCB_SUCCESS, { c with expiry_ := expiry })

/-- Setter `lcb_STATUS key(std::string key)`. -/
def key (c : lcb_CMDCOUNTER_) (key : String) : lcb_STATUS × lcb_CMDCOUNTER_ :=
  (lcb_STATUS.LCB_SUCCESS, { c with key_ := key })

/-- Setter `lcb_STATUS collection(lcb::collection_qualifier collection)`. -/
def collection (c : lcb_CMDCOUNTER_) (collection : collection_qualifier) :
    lcb_STATUS × lcb_CMDCOUNTER_ :=
  (lcb_STATUS.LCB_SUCCESS, { c with collection_ := collection })

/-- Setter `lcb_STATUS parent_span(lcbtrace_SPAN *parent_span)`. -/
def parent_span (c : lcb_CMDCOUNTER_) (parent_span : Nat) : lcb_STATUS × lcb_CMDCOUNTER_ :=
  (lcb_STATUS.LCB_SUCCESS, { c with parent_span_ := parent_span })

/-- Setter `lcb_STATUS timeout_in_milliseconds(std::uint32_t timeout)`:
`timeout_ = std::chrono::milliseconds(timeout)`; the millisecond count is
converted to microseconds by a multiplication by 1000 in the signed 64-bit
representation. -/
def timeout_in_milliseconds (c : lcb_CMDCOUNTER_) (timeout : Nat) :
    lcb_STATUS × lcb_CMDCOUNTER_ :=
  (lcb_STATUS.LCB_SUCCESS, { c with timeout_ := toInt64 (toInt64 (timeout : Int) * 1000) })

/-- Setter `lcb_STATUS timeout_in_microseconds(std::uint32_t timeout)`:
`timeout_ = std::chrono::microseconds(timeout)`. -/
def timeout_in_microseconds (c : lcb_CMDCOUNTER_) (timeout : Nat) :
    lcb_STATUS × lcb_CMDCOUNTER_ :=
  (lcb_STATUS.LCB_SUCCESS, { c with timeout_ := toInt64 (timeout : Int) })

/-- Setter `lcb_STATUS start_time_in_nanoseconds(std::uint64_t val)`:
`start_time_ = std::chrono::nanoseconds(val)`. -/
def start_time_in_nanoseconds (c : lcb_CMDCOUNTER_) (val : Nat) :
    lcb_STATUS × lcb_CMDCOUNTER_ :=
  (lcb_STATUS.LCB_SUCCESS, { c with start_time_ := toInt64 (val : Int) })

/-- Getter `std::uint64_t start_time_or_default_in_nanoseconds(std::uint64_t default_val)`. -/
def start_time_or_default_in_nanoseconds (c : lcb_CMDCOUNTER_) (default_val : Nat) : Nat :=
  if c.start_time_ = 0 then default_val else toUInt64 c.start_time_

/-- Setter `lcb_STATUS delta(std::int64_t delta)`. -/
def delta (c : lcb_CMDCOUNTER_) (delta : Int) : lcb_STATUS × lcb_CMDCOUNTER_ :=
  (lcb_STATUS.LCB_SUCCESS, { c with delta_ := delta })

/-- Setter `lcb_STATUS initialize_with(std::uint64_t initial_value)`. -/
def initialize_with (c : lcb_CMDCOUNTER_) (initial_value : Nat) :
    lcb_STATUS × lcb_CMDCOUNTER_ :=
  (lcb_STATUS.LCB_SUCCESS,
    { c with initialize_if_does_not_exist_ := true, initial_value_ := initial_value })

/-- Setter `lcb_STATUS durability_level(lcb_DURABILITY_LEVEL level)`. -/
def durability_level (c : lcb_CMDCOUNTER_) (level : lcb_DURABILITY_LEVEL) :
    lcb_STATUS × lcb_CMDCOUNTER_ :=
  (lcb_STATUS.LCB_SUCCESS, { c with durability_level_ := level })

/-- Getter `const lcb::collection_qualifier &collection() const`. -/
def collection_const (c : lcb_CMDCOUNTER_) : collection_qualifier := c.collection_

/-- Getter `bool has_durability_requirements() const`. -/
def has_durability_requirements (c : lcb_CMDCOUNTER_) : Bool :=
  c.durability_level_ != lcb_DURABILITY_LEVEL.LCB_DURABILITYLEVEL_NONE

/-- Getter `lcb_DURABILITY_LEVEL durability_level() const`. -/
def durability_level_const (c : lcb_CMDCOUNTER_) : lcb_DURABILITY_LEVEL := c.durability_level_

/-- Getter `const std::string &key() const`. -/
def key_const (c : lcb_CMDCOUNTER_) : String := c.key_

/-- Getter `std::uint64_t timeout_or_default_in_nanoseconds(std::uint64_t default_timeout) const`:
when the timeout is positive, `duration_cast<nanoseconds>(timeout_).count()`
(a multiplication by 1000 in the signed 64-bit representation) converted to
the unsigned return type. -/
def timeout_or_default_in_nanoseconds (c : lcb_CMDCOUNTER_) (default_timeout : Nat) : Nat :=
  if c.timeout_ > 0 then toUInt64 (toInt64 (c.timeout_ * 1000)) else default_timeout

/-- Getter `std::uint32_t timeout_in_microseconds() const`:
`static_cast<std::uint32_t>(timeout_.count())`. -/
def timeout_in_microseconds_const (c : lcb_CMDCOUNTER_) : Nat := toUInt32 c.timeout_

/-- Getter `std::uint64_t initial_value() const`. -/
def initial_value (c : lcb_CMDCOUNTER_) : Nat := c.initial_value_

/-- Getter `bool initialize_if_does_not_exist() const`. -/
def initialize_if_does_not_exist (c : lcb_CMDCOUNTER_) : Bool :=
  c.initialize_if_does_not_exist_

/-- Getter `std::uint32_t expiry() const`. -/
def expiry_const (c : lcb_CMDCOUNTER_) : Nat := c.expiry_

/-- Getter `std::int64_t delta() const`. -/
def delta_const (c : lcb_CMDCOUNTER_) : Int := c.delta_

/-- Getter `lcbtrace_SPAN *parent_span() const`. -/
def parent_span_const (c : lcb_CMDCOUNTER_) : Nat := c.parent_span_

/-- Setter `void cookie(void *cookie)`. -/
def cookie (c : lcb_CMDCOUNTER_) (cookie : Nat) : lcb_CMDCOUNTER_ :=
  { c with cookie_ := cookie }

/-- Getter `void *cookie()`. -/
def cookie_const (c : lcb_CMDCOUNTER_) : Nat := c.cookie_

end lcb_CMDCOUNTER_

/-! ## `lcb_CMDGETREPLICA_` -/

/-- The enumeration `enum class get_replica_mode`. -/
inductive get_replica_mode where
  | any
  | all
  | select
  deriving DecidableEq, Repr

/-- The private data members of `struct lcb_CMDGETREPLICA_`, with their default
member initialisers. -/
structure lcb_CMDGETREPLICA_ where
  collection_ : collection_qualifier := {}
  timeout_ : Int := 0
  start_time_ : Int := 0
  parent_span_ : Nat := 0
  cookie_ : Nat := 0
  key_ : String := ""
  mode_ : get_replica_mode := get_replica_mode.any
  select_index_ : Int := 0
  deriving DecidableEq, Repr

namespace lcb_CMDGETREPLICA_

/-- A default-constructed get-replica command. -/
def fresh : lcb_CMDGETREPLICA_ := {}

/-- Setter `lcb_STATUS mode(get_replica_mode mode)`. -/
def mode (c : lcb_CMDGETREPLICA_) (mode : get_replica_mode) :
    lcb_STATUS × lcb_CMDGETREPLICA_ :=
  (lcb_STATUS.LCB_SUCCESS, { c with mode_ := mode })

/-- Getter `get_replica_mode mode() const`. -/
def mode_const (c : lcb_CMDGETREPLICA_) : get_replica_mode := c.mode_

/-- Setter `lcb_STATUS select_index(int replica_index)`. -/
def select_index (c : lcb_CMDGETREPLICA_) (replica_index : Int) :
    lcb_STATUS × lcb_CMDGETREPLICA_ :=
  (lcb_STATUS.LCB_SUCCESS,
    { c with mode_ := get_replica_mode.select, select_index_ := replica_index })

/-- Getter `int selected_replica_index() const`. -/
def selected_replica_index (c : lcb_CMDGETREPLICA_) : Int := c.select_index_

/-- Getter `bool need_get_active() const`. -/
def need_get_active (c : lcb_CMDGETREPLICA_) : Bool :=
  c.mode_ == get_replica_mode.all

/-- Setter `lcb_STATUS key(std::string key)`. -/
def key (c : lcb_CMDGETREPLICA_) (key : String) : lcb_STATUS × lcb_CMDGETREPLICA_ :=
  (lcb_STATUS.LCB_SUCCESS, { c with key_ := key })

/-- Setter `lcb_STATUS collection(lcb::collection_qualifier collection)`. -/
def collection (c : lcb_CMDGETREPLICA_) (collection : collection_qualifier) :
    lcb_STATUS × lcb_CMDGETREPLICA_ :=
  (lcb_STATUS.LCB_SUCCESS, { c with collection_ := collection })

/-- Setter `lcb_STATUS parent_span(lcbtrace_SPAN *parent_span)`. -/
def parent_span (c : lcb_CMDGETREPLICA_) (parent_span : Nat) :
    lcb_STATUS × lcb_CMDGETREPLICA_ :=
  (lcb_STATUS.LCB_SUCCESS, { c with parent_span_ := parent_span })

/-- Setter `lcb_STATUS timeout_in_milliseconds(std::uint32_t timeout)`. -/
def timeout_in_milliseconds (c : lcb_CMDGETREPLICA_) (timeout : Nat) :
    lcb_STATUS × lcb_CMDGETREPLICA_ :=
  (lcb_STATUS.LCB_SUCCESS, { c with timeout_ := toInt64 (toInt64 (timeout : Int) * 1000) })

/-- Setter `lcb_STATUS timeout_in_microseconds(std::uint32_t timeout)`. -/
def timeout_in_microseconds (c : lcb_CMDGETREPLICA_) (timeout : Nat) :
    lcb_STATUS × lcb_CMDGETREPLICA_ :=
  (lcb_STATUS.LCB_SUCCESS, { c with timeout_ := toInt64 (timeout : Int) })

/-- Setter `lcb_STATUS start_time_in_nanoseconds(std::uint64_t val)`. -/
def start_time_in_nanoseconds (c : lcb_CMDGETREPLICA_) (val : Nat) :
    lcb_STATUS × lcb_CMDGETREPLICA_ :=
  (lcb_STATUS.LCB_SUCCESS, { c with start_time_ := toInt64 (val : Int) })

/-- Getter `std::uint64_t start_time_or_default_in_nanoseconds(std::uint64_t default_val) const`. -/
def start_time_or_default_in_nanoseconds (c : lcb_CMDGETREPLICA_) (default_val : Nat) : Nat :=
  if c.start_time_ = 0 then default_val else toUInt64 c.start_time_

/-- Getter `const lcb::collection_qualifier &collection() const`. -/
def collection_const (c : lcb_CMDGETREPLICA_) : collection_qualifier := c.collection_

/-- Getter `const std::string &key() const`. -/
def key_const (c : lcb_CMDGETREPLICA_) : String := c.key_

/-- Getter `std::uint64_t timeout_or_default_in_nanoseconds(std::uint64_t default_timeout) const`. -/
def timeout_or_default_in_nanoseconds (c : lcb_CMDGETREPLICA_) (default_timeout : Nat) : Nat :=
  if c.timeout_ > 0 then toUInt64 (toInt64 (c.timeout_ * 1000)) else default_timeout

/-- Getter `std::uint32_t timeout_in_microseconds() const`. -/
def timeout_in_microseconds_const (c : lcb_CMDGETREPLICA_) : Nat := toUInt32 c.timeout_

/-- Getter `lcbtrace_SPAN *parent_span() const`. -/
def parent_span_const (c : lcb_CMDGETREPLICA_) : Nat := c.parent_span_

/-- Setter `void cookie(void *cookie)`. -/
def cookie (c : lcb_CMDGETREPLICA_) (cookie : Nat) : lcb_CMDGETREPLICA_ :=
  { c with cookie_ := cookie }

/-- Getter `void *cookie()`. -/
def cookie_const (c : lcb_CMDGETREPLICA_) : Nat := c.cookie_

end lcb_CMDGETREPLICA_

/-! ## Calls of the mutating members -/

namespace lcb_CMDCOUNTER_

/-- One call of a mutating member function of `lcb_CMDCOUNTER_`, with its
argument.  `cookie` is the `void cookie(void *)` overload; every other member
returns `lcb_STATUS`. -/
inductive Call where
  | expiry (expiry : Nat)
  | key (key : String)
  | collection (collection : collection_qualifier)
  | parent_span (parent_span : Nat)
  | timeout_in_milliseconds (timeout : Nat)
  | timeout_in_microseconds (timeout : Nat)
  | start_time_in_nanoseconds (val : Nat)
  | delta (delta : Int)
  | initialize_with (initial_value : Nat)
  | durability_level (level : lcb_DURABILITY_LEVEL)
  | cookie (cookie : Nat)
  deriving DecidableEq, Repr

/-- Performs one call on the command `c`: the returned status (`none` for the
`void` member `cookie`) and the command afterwards. -/
def Call.run (c : lcb_CMDCOUNTER_) : Call → Option lcb_STATUS × lcb_CMDCOUNTER_
  | Call.expiry e => (some (c.expiry e).1, (c.expiry e).2)
  | Call.key k => (some (c.key k).1, (c.key k).2)
  | Call.collection q => (some (c.collection q).1, (c.collection q).2)
  | Call.parent_span p => (some (c.parent_span p).1, (c.parent_span p).2)
  | Call.timeout_in_milliseconds t =>
      (some (c.timeout_in_milliseconds t).1, (c.timeout_in_milliseconds t).2)
  | Call.timeout_in_microseconds t =>
      (some (c.timeout_in_microseconds t).1, (c.timeout_in_microseconds t).2)
  | Call.start_time_in_nanoseconds v =>
      (some (c.start_time_in_nanoseconds v).1, (c.start_time_in_nanoseconds v).2)
  | Call.delta d => (some (c.delta d).1, (c.delta d).2)
  | Call.initialize_with v => (some (c.initialize_with v).1, (c.initialize_with v).2)
  | Call.durability_level l => (some (c.durability_level l).1, (c.durability_level l).2)
  | Call.cookie p => (none, c.cookie p)

/-- Performs a sequence of calls, first to last, on the command `c`. -/
def run_all (c : lcb_CMDCOUNTER_) : List Call → lcb_CMDCOUNTER_
  | [] => c
  | k :: ks => run_all (Call.run c k).2 ks

/-- Whether the call is a call of `expiry`. -/
def Call.is_expiry : Call → Bool
  | Call.expiry _ => true
  | _ => false

/-- Whether the call is a call of the `void` member `cookie`. -/
def Call.is_cookie : Call → Bool
  | Call.cookie _ => true
  | _ => false

/-- The command `c` with the fields that the called member owns taken from `s`
and every other field kept.  A call changes only its own fields when the
command after the call is `Call.own_fields k c` of itself. -/
def Call.own_fields (k : Call) (c s : lcb_CMDCOUNTER_) : lcb_CMDCOUNTER_ :=
  match k with
  | Call.expiry _ => { c with expiry_ := s.expiry_ }
  | Call.key _ => { c with key_ := s.key_ }
  | Call.collection _ => { c with collection_ := s.collection_ }
  | Call.parent_span _ => { c with parent_span_ := s.parent_span_ }
  | Call.timeout_in_milliseconds _ => { c with timeout_ := s.timeout_ }
  | Call.timeout_in_microseconds _ => { c with timeout_ := s.timeout_ }
  | Call.start_time_in_nanoseconds _ => { c with start_time_ := s.start_time_ }
  | Call.delta _ => { c with delta_ := s.delta_ }
  | Call.initialize_with _ =>
      { c with initialize_if_does_not_exist_ := s.initialize_if_does_not_exist_,
               initial_value_ := s.initial_value_ }
  | Call.durability_level _ => { c with durability_level_ := s.durability_level_ }
  | Call.cookie _ => { c with cookie_ := s.cookie_ }

end lcb_CMDCOUNTER_

namespace lcb_CMDGETREPLICA_

/-- One call of a mutating member function of `lcb_CMDGETREPLICA_`, with its
argument.  `cookie` is the `void cookie(void *)` overload; every other member
returns `lcb_STATUS`. -/
inductive Call where
  | mode (mode : get_replica_mode)
  | select_index (replica_index : Int)
  | key (key : String)
  | collection (collection : collection_qualifier)
  | parent_span (parent_span : Nat)
  | timeout_in_milliseconds (timeout : Nat)
  | timeout_in_microseconds (timeout : Nat)
  | start_time_in_nanoseconds (val : Nat)
  | cookie (cookie : Nat)
  deriving DecidableEq, Repr

/-- Performs one call on the command `c`: the returned status (`none` for the
`void` member `cookie`) and the command afterwards. -/
def Call.run (c : lcb_CMDGETREPLICA_) : Call → Option lcb_STATUS × lcb_CMDGETREPLICA_
  | Call.mode m => (some (c.mode m).1, (c.mode m).2)
  | Call.select_index i => (some (c.select_index i).1, (c.select_index i).2)
  | Call.key k => (some (c.key k).1, (c.key k).2)
  | Call.collection q => (some (c.collection q).1, (c.collection q).2)
  | Call.parent_span p => (some (c.parent_span p).1, (c.parent_span p).2)
  | Call.timeout_in_milliseconds t =>
      (some (c.timeout_in_milliseconds t).1, (c.timeout_in_milliseconds t).2)
  | Call.timeout_in_microseconds t =>
      (some (c.timeout_in_microseconds t).1, (c.timeout_in_microseconds t).2)
  | Call.start_time_in_nanoseconds v =>
      (some (c.start_time_in_nanoseconds v).1, (c.start_time_in_nanoseconds v).2)
  | Call.cookie p => (none, c.cookie p)

/-- Performs a sequence of calls, first to last, on the command `c`. -/
def run_all (c : lcb_CMDGETREPLICA_) : List Call → lcb_CMDGETREPLICA_
  | [] => c
  | k :: ks => run_all (Call.run c k).2 ks

/-- Whether the call is a call of the `void` member `cookie`. -/
def Call.is_cookie : Call → Bool
  | Call.cookie _ => true
  | _ => false

/-- The command `c` with the fields that the called member owns taken from `s`
and every other field kept. -/
def Call.own_fields (k : Call) (c s : lcb_CMDGETREPLICA_) : lcb_CMDGETREPLICA_ :=
  match k with
  | Call.mode _ => { c with mode_ := s.mode_ }
  | Call.select_index _ => { c with mode_ := s.mode_, select_index_ := s.select_index_ }
  | Call.key _ => { c with key_ := s.key_ }
  | Call.collection _ => { c with collection_ := s.collection_ }
  | Call.parent_span _ => { c with parent_span_ := s.parent_span_ }
  | Call.timeout_in_milliseconds _ => { c with timeout_ := s.timeout_ }
  | Call.timeout_in_microseconds _ => { c with timeout_ := s.timeout_ }
  | Call.start_time_in_nanoseconds _ => { c with start_time_ := s.start_time_ }
  | Call.cookie _ => { c with cookie_ := s.cookie_ }

end lcb_CMDGETREPLICA_

/-! ## `Connection` (src/connection.cpp)

A native method or handler becomes a function from the connection before the
call to the connection after it together with the list of calls it makes, in
program order, into libuv, libcouchbase and the JavaScript engine.  What such
a call returns is an argument of the function.  The calls do not re-enter the
connection while they run.  The C++ parameter `instance` is spelled `inst`.
-/

/-- Values of the enumerators and macros that connection.cpp takes from the
libcouchbase headers (`error.h`, `cntl.h`), which are not part of the sources.
They are a parameter of the embedding. -/
structure lcb_h where
  LCB_SUCCESS : Int
  LCB_CNTL_SET : Int
  LCB_CNTL_GET : Int
  LCB_CNTL_SCHED_IMPLICIT_FLUSH : Int
  LCB_CNTL_CONFIGURATION_TIMEOUT : Int
  LCB_CNTL_VIEW_TIMEOUT : Int
  LCB_CNTL_QUERY_TIMEOUT : Int
  LCB_CNTL_HTTP_TIMEOUT : Int
  LCB_CNTL_DURABILITY_INTERVAL : Int
  LCB_CNTL_DURABILITY_TIMEOUT : Int
  LCB_CNTL_OP_TIMEOUT : Int
  LCB_CNTL_CONFDELAY_THRESH : Int
  deriving DecidableEq, Repr

/-- A sample assignment of the header values, with `LCB_SUCCESS` zero and the
control codes pairwise distinct, for evaluating the embedding. -/
def lcb_h.sample : lcb_h :=
  { LCB_SUCCESS := 0, LCB_CNTL_SET := 0, LCB_CNTL_GET := 1,
    LCB_CNTL_SCHED_IMPLICIT_FLUSH := 49,
    LCB_CNTL_CONFIGURATION_TIMEOUT := 18, LCB_CNTL_VIEW_TIMEOUT := 1,
    LCB_CNTL_QUERY_TIMEOUT := 61, LCB_CNTL_HTTP_TIMEOUT := 15,
    LCB_CNTL_DURABILITY_INTERVAL := 14, LCB_CNTL_DURABILITY_TIMEOUT := 13,
    LCB_CNTL_OP_TIMEOUT := 0, LCB_CNTL_CONFDELAY_THRESH := 37 }

/-- JavaScript values as far as the native methods distinguish them.
`error_status err` is `Error::create(err)` for a status `err` and
`error_message msg` is `Error::create(msg)` for a string; `Error::create` is
declared in `error.h`, outside the sources, and stays symbolic.  A status
(`lcb_STATUS`) is its integer code here, as connection.cpp compares it with
the literal `0`. -/
inductive JsValue where
  | undefined
  | boolean (b : Bool)
  | number (n : Int)
  | string (s : String)
  | function (id : Nat)
  | error_status (err : Int)
  | error_message (msg : String)
  deriving DecidableEq, Repr

/-- The test `v->IsString()`. -/
def JsValue.IsString : JsValue → Bool
  | JsValue.string _ => true
  | _ => false

/-- The characters of `Nan::Utf8String(v)` for a string `v`. -/
def JsValue.Utf8String : JsValue → String
  | JsValue.string s => s
  | _ => ""

/-- Modelled from the spec: the class `Cookie` is declared in `cookie.h`,
which is not part of the sources.  The spec describes a cookie as the handle
that correlates a pending request with its completion callback; it is built
by `new Cookie(name, callback)`, `Call` invokes the callback, and `delete`
releases the cookie without invoking anything. -/
structure Cookie where
  name : String
  callback : JsValue
  deriving DecidableEq, Repr

/-- The libuv prepare handle behind `_flushWatch`: whether it is started. -/
structure uv_prepare_t where
  active : Bool := false
  deriving DecidableEq, Repr

/-- A call made by the connection into libuv, libcouchbase or the JavaScript
engine, or the release of an object it owns. -/
inductive Effect where
  | uv_prepare_start_uvFlushHandler
  | uv_prepare_stop
  | uv_close
  | lcb_destroy (inst : Nat)
  | lcb_destroy_async (inst : Nat)
  | lcb_set_bootstrap_callback_empty (inst : Nat)
  | lcb_cntl (inst : Option Nat) (mode : Int) (cmd : Int) (arg : Option Int)
  | lcb_connect (inst : Option Nat)
  | lcb_open (inst : Option Nat) (bucketName : String)
  | lcb_sched_flush (inst : Option Nat)
  | delete_logger (logger : Nat)
  | delete_clientStringCache
  | Cookie_Call (cookie : Cookie) (arg : JsValue)
  | Cookie_delete (cookie : Cookie)
  deriving DecidableEq, Repr

/-- How a native method ends: with a return value (`undefined` when none was
set) or with a thrown JavaScript error. -/
inductive NanResult where
  | returned (value : JsValue)
  | thrown (error : JsValue)
  deriving DecidableEq, Repr

/-- The data members of `class Connection` that connection.cpp uses.  A null
pointer is `none`. -/
structure Connection where
  _instance : Option Nat
  _logger : Option Nat
  _clientStringCache : Option String
  _bootstrapCookie : Option Cookie
  _openCookie : Option Cookie
  _flushWatch : Option uv_prepare_t
  deriving DecidableEq, Repr

namespace Connection

/-- The constructor `Connection::Connection(lcb_INSTANCE *instance, Logger *logger)`. -/
def new (inst : Option Nat) (logger : Option Nat) : Connection :=
  { _instance := inst, _logger := logger, _clientStringCache := none,
    _bootstrapCookie := none, _openCookie := none, _flushWatch := some { active := false } }

/-- The effects of `if (p) { delete p; p = nullptr; }` for a cookie pointer. -/
def delete_cookie : Option Cookie → List Effect
  | some ck => [Effect.Cookie_delete ck]
  | none => []

/-- The destructor `Connection::~Connection()`. -/
def dtor (me : Connection) : Connection × List Effect :=
  ({ _instance := none, _logger := none, _clientStringCache := none,
     _bootstrapCookie := none, _openCookie := none, _flushWatch := none },
   (match me._flushWatch with
    | some _ => [Effect.uv_prepare_stop, Effect.uv_close]
    | none => []) ++
   (match me._instance with
    | some i => [Effect.lcb_destroy i]
    | none => []) ++
   (match me._logger with
    | some l => [Effect.delete_logger l]
    | none => []) ++
   (match me._clientStringCache with
    | some _ => [Effect.delete_clientStringCache]
    | none => []) ++
   delete_cookie me._bootstrapCookie ++
   delete_cookie me._openCookie)

/-- The handler `Connection::uvFlushHandler(uv_prepare_t *handle)`. -/
def uvFlushHandler (me : Connection) : List Effect :=
  [Effect.lcb_sched_flush me._instance]

/-- The handler `Connection::lcbBootstapHandler(lcb_INSTANCE *instance, lcb_STATUS err)`,
with `me = Connection::fromInstance(instance)`. -/
def lcbBootstapHandler (K : lcb_h) (me : Connection) (inst : Nat) (err : Int) :
    Connection × List Effect :=
  let r1 : Connection × List Effect :=
    if err ≠ 0 then
      ({ me with _instance := none },
       [Effect.lcb_set_bootstrap_callback_empty inst, Effect.lcb_destroy_async inst])
    else
      ({ me with _flushWatch := me._flushWatch.map (fun w => { w with active := true }) },
       [Effect.uv_prepare_start_uvFlushHandler,
        Effect.lcb_cntl (some inst) K.LCB_CNTL_SET K.LCB_CNTL_SCHED_IMPLICIT_FLUSH (some 0)])
  match r1.1._bootstrapCookie with
  | some ck =>
      ({ r1.1 with _bootstrapCookie := none },
       r1.2 ++ [Effect.Cookie_Call ck (JsValue.error_status err), Effect.Cookie_delete ck])
  | none => r1

/-- The handler `Connection::lcbOpenHandler(lcb_INSTANCE *instance, lcb_STATUS err)`,
with `me = Connection::fromInstance(instance)`. -/
def lcbOpenHandler (me : Connection) (_inst : Nat) (err : Int) :
    Connection × List Effect :=
  match me._openCookie with
  | some ck =>
      ({ me with _openCookie := none },
       [Effect.Cookie_Call ck (JsValue.error_status err), Effect.Cookie_delete ck])
  | none => (me, [])

/-- The method `Connection::fnConnect`; `info` are the JavaScript arguments
and `ec` is the status that `lcb_connect(me->_instance)` returns. -/
def fnConnect (K : lcb_h) (me : Connection) (info : List JsValue) (ec : Int) :
    NanResult × Connection × List Effect :=
  if info.length ≠ 1 then
    (NanResult.thrown (JsValue.error_message "expected 1 parameter"), me, [])
  else
    let me1 : Connection :=
      { me with _bootstrapCookie := some { name := "connect", callback := info.getD 0 JsValue.undefined } }
    let eff := delete_cookie me._bootstrapCookie ++ [Effect.lcb_connect me._instance]
    if ec ≠ K.LCB_SUCCESS then
      (NanResult.thrown (JsValue.error_status ec), me1, eff)
    else
      (NanResult.returned (JsValue.boolean true), me1, eff)

/-- The method `Connection::fnSelectBucket`; `info` are the JavaScript
arguments and `ec` is the status that `lcb_open` returns. -/
def fnSelectBucket (K : lcb_h) (me : Connection) (info : List JsValue) (ec : Int) :
    NanResult × Connection × List Effect :=
  if info.length ≠ 2 then
    (NanResult.thrown (JsValue.error_message "expected 2 parameters"), me, [])
  else if !(info.getD 0 JsValue.undefined).IsString then
    (NanResult.thrown (JsValue.error_message "must pass string for bucket name"), me, [])
  else
    let me1 : Connection :=
      { me with _openCookie := some { name := "open", callback := info.getD 1 JsValue.undefined } }
    let eff := delete_cookie me._openCookie ++
      [Effect.lcb_open me._instance (info.getD 0 JsValue.undefined).Utf8String]
    if ec ≠ K.LCB_SUCCESS then
      (NanResult.thrown (JsValue.error_status ec), me1, eff)
    else
      (NanResult.returned (JsValue.boolean true), me1, eff)

/-- The method `Connection::fnShutdown`. -/
def fnShutdown (me : Connection) : NanResult × Connection × List Effect :=
  let me1 : Connection :=
    { me with _flushWatch := me._flushWatch.map (fun w => { w with active := false }) }
  match me1._instance with
  | some i =>
      (NanResult.returned (JsValue.boolean true), { me1 with _instance := none },
       [Effect.uv_prepare_stop, Effect.lcb_destroy_async i])
  | none =>
      (NanResult.returned (JsValue.boolean true), me1, [Effect.uv_prepare_stop])

end Connection

/-- The enumeration `enum CntlFormat`. -/
inductive CntlFormat where
  | CntlInvalid
  | CntlTimeValue
  deriving DecidableEq, Repr

/-- The function `CntlFormat getCntlFormat(int option)`. -/
def getCntlFormat (K : lcb_h) (option : Int) : CntlFormat :=
  if option = K.LCB_CNTL_CONFIGURATION_TIMEOUT ∨ option = K.LCB_CNTL_VIEW_TIMEOUT ∨
      option = K.LCB_CNTL_QUERY_TIMEOUT ∨ option = K.LCB_CNTL_HTTP_TIMEOUT ∨
      option = K.LCB_CNTL_DURABILITY_INTERVAL ∨ option = K.LCB_CNTL_DURABILITY_TIMEOUT ∨
      option = K.LCB_CNTL_OP_TIMEOUT ∨ option = K.LCB_CNTL_CONFDELAY_THRESH then
    CntlFormat.CntlTimeValue
  else
    CntlFormat.CntlInvalid

/-- The method `Connection::fnCntl`.  `mode`, `option` and `arg2` are what
`Nan::To<int>` yields for `info[0]`, `info[1]` and `info[2]`; `lcb_cntl` gives,
for the instance, mode, option and the value behind the pointer on entry
(`none` for the uninitialised `int val` of the get branch), the returned
status and the value behind the pointer on return.  The connection itself is
not changed. -/
def Connection.fnCntl (K : lcb_h)
    (lcb_cntl : Option Nat → Int → Int → Option Int → Int × Int)
    (me : Connection) (mode option arg2 : Int) : NanResult × List Effect :=
  let fmt := getCntlFormat K option
  if fmt = CntlFormat.CntlTimeValue then
    if mode = K.LCB_CNTL_GET then
      let r := lcb_cntl me._instance mode option none
      if r.1 ≠ K.LCB_SUCCESS then
        (NanResult.thrown (JsValue.error_status r.1),
         [Effect.lcb_cntl me._instance mode option none])
      else
        (NanResult.returned (JsValue.number r.2),
         [Effect.lcb_cntl me._instance mode option none])
    else
      let r := lcb_cntl me._instance mode option (some arg2)
      if r.1 ≠ K.LCB_SUCCESS then
        (NanResult.thrown (JsValue.error_status r.1),
         [Effect.lcb_cntl me._instance mode option (some arg2)])
      else
        (NanResult.returned JsValue.undefined,
         [Effect.lcb_cntl me._instance mode option (some arg2)])
  else
    (NanResult.thrown (JsValue.error_message "unexpected cntl cmd"), [])

/-! ## Sequences of connection events -/

namespace Connection

/-- A call of `fnConnect` or `fnSelectBucket` from JavaScript, or a bootstrap
or open event reported by the library, with the arguments of the embedded
function. -/
inductive Event where
  | fnConnect (info : List JsValue) (ec : Int)
  | fnSelectBucket (info : List JsValue) (ec : Int)
  | lcbBootstapHandler (inst : Nat) (err : Int)
  | lcbOpenHandler (inst : Nat) (err : Int)
  deriving DecidableEq, Repr

/-- Handles one event: the connection afterwards and the calls made. -/
def step (K : lcb_h) (me : Connection) : Event → Connection × List Effect
  | Event.fnConnect info ec => (fnConnect K me info ec).2
  | Event.fnSelectBucket info ec => (fnSelectBucket K me info ec).2
  | Event.lcbBootstapHandler inst err => lcbBootstapHandler K me inst err
  | Event.lcbOpenHandler inst err => lcbOpenHandler me inst err

/-- Handles a sequence of events, first to last: the connection afterwards
and all calls made, in order. -/
def run (K : lcb_h) (me : Connection) : List Event → Connection × List Effect
  | [] => (me, [])
  | ev :: evs => ((run K (step K me ev).1 evs).1, (step K me ev).2 ++ (run K (step K me ev).1 evs).2)

/-- Whether the event registers the cookie `ck`: a `fnConnect` call that gets
past its argument check registers `Cookie("connect", info[0])`, a
`fnSelectBucket` call that gets past its checks registers
`Cookie("open", info[1])`. -/
def Event.registers (ck : Cookie) : Event → Bool
  | Event.fnConnect info _ =>
      decide (info.length = 1) &&
        decide (ck = { name := "connect", callback := info.getD 0 JsValue.undefined })
  | Event.fnSelectBucket info _ =>
      decide (info.length = 2) && (info.getD 0 JsValue.undefined).IsString &&
        decide (ck = { name := "open", callback := info.getD 1 JsValue.undefined })
  | _ => false

/-- The number of slots of the connection, 0 to 2, in which `ck` is pending. -/
def pending (me : Connection) (ck : Cookie) : Nat :=
  (if me._bootstrapCookie = some ck then 1 else 0) + (if me._openCookie = some ck then 1 else 0)

end Connection

/-- Whether the effect is an invocation `Call` of some cookie. -/
def Effect.is_Cookie_Call : Effect → Bool
  | Effect.Cookie_Call _ _ => true
  | _ => false

/-- Whether the effect is an invocation `Call` of the cookie `ck`. -/
def Effect.calls (ck : Cookie) : Effect → Bool
  | Effect.Cookie_Call c _ => decide (c = ck)
  | _ => false

/-! ## Sequences of shutdown calls -/

/-- Whether the effect is a call of `lcb_destroy_async`. -/
def Effect.is_lcb_destroy_async : Effect → Bool
  | Effect.lcb_destroy_async _ => true
  | _ => false

/-- Calls `fnShutdown` `n` times in a row: the connection afterwards and all
calls made, in order. -/
def Connection.fnShutdown_times (me : Connection) : Nat → Connection × List Effect
  | 0 => (me, [])
  | n + 1 =>
      ((Connection.fnShutdown_times (Connection.fnShutdown me).2.1 n).1,
       (Connection.fnShutdown me).2.2 ++
         (Connection.fnShutdown_times (Connection.fnShutdown me).2.1 n).2)

/-! ## HTTP requests of the library (deps/lcb/tests/iotests/t_http.cc)

The tests `testDoubleCancel` and `testDestroyWithActiveRequest` and their
callbacks are embedded from the test file.  The library functions they call
are not part of the sources and are modelled from the spec.
-/

/-- Modelled from the spec: the fate of a submitted request, which is not
declared in the sources.  A request is outstanding (`in_flight`) until its
terminal response is delivered (`completed`) or it is cancelled
(`cancelled`); these ends exclude one another. -/
inductive request_state where
  | in_flight
  | completed
  | cancelled
  deriving DecidableEq, Repr

/-- The response callbacks that the embedded tests install with
`lcb_install_callback(instance, LCB_CALLBACK_HTTP, ...)`, and the callback of
a newly created instance, which does nothing. -/
inductive http_callback where
  | default_callback
  | doubleCancel_callback
  | noInvoke_callback
  deriving DecidableEq, Repr

/-- Modelled from the spec: the part of `lcb_INSTANCE` that the HTTP tests
observe; the structure is not declared in the sources.  `requests` maps each
request handle to its fate, `notifications` lists the invocations of the
installed callback (handle and whether the response was final) in order, and
`test_failures` counts the failed test expectations. -/
structure lcb_INSTANCE where
  callback : http_callback
  requests : List (Nat × request_state) := []
  notifications : List (Nat × Bool) := []
  test_failures : Nat := 0
  deriving DecidableEq, Repr

/-- Modelled from the spec: `lcb_install_callback` for `LCB_CALLBACK_HTTP`,
not part of the sources, replaces the installed callback. -/
def lcb_install_callback (I : lcb_INSTANCE) (cb : http_callback) : lcb_INSTANCE :=
  { I with callback := cb }

/-- Modelled from the spec: `lcb_http`, not part of the sources, accepts the
request under a handle not in use and leaves it outstanding. -/
def lcb_http (I : lcb_INSTANCE) : lcb_INSTANCE × Nat :=
  ({ I with requests := I.requests ++ [(I.requests.length, request_state.in_flight)] },
   I.requests.length)

/-- Modelled from the spec: `lcb_http_cancel`, not part of the sources.  The
spec: cancelling detaches the request from future delivery; cancelling an
already-completed or already-cancelled request is a safe no-op, not an error;
a cancellation delivers no notification. -/
def lcb_http_cancel (I : lcb_INSTANCE) (handle : Nat) : lcb_INSTANCE :=
  { I with requests := I.requests.map (fun r =>
      if r.1 = handle ∧ r.2 = request_state.in_flight
        then (r.1, request_state.cancelled) else r) }

/-- The body of the installed callback, from t_http.cc, run on a response for
`handle`.  `doubleCancel_callback` cancels the handle twice when the response
is final; `noInvoke_callback` is `EXPECT_FALSE(true)`, a failed expectation. -/
def http_callback.body (I : lcb_INSTANCE) (handle : Nat) (final : Bool) : lcb_INSTANCE :=
  match I.callback with
  | http_callback.default_callback => I
  | http_callback.doubleCancel_callback =>
      if final then lcb_http_cancel (lcb_http_cancel I handle) handle else I
  | http_callback.noInvoke_callback => { I with test_failures := I.test_failures + 1 }

/-- One invocation of the installed callback: it is recorded, then its body
runs. -/
def lcb_INSTANCE.notify (I : lcb_INSTANCE) (handle : Nat) (final : Bool) : lcb_INSTANCE :=
  http_callback.body { I with notifications := I.notifications ++ [(handle, final)] }
    handle final

/-- Marks the request `handle` as completed when it is outstanding. -/
def lcb_INSTANCE.complete (I : lcb_INSTANCE) (handle : Nat) : lcb_INSTANCE :=
  { I with requests := I.requests.map (fun r =>
      if r.1 = handle ∧ r.2 = request_state.in_flight
        then (r.1, request_state.completed) else r) }

/-- Modelled from the spec: arrival of the terminal response of `handle`
(the demultiplexer is not part of the sources).  An outstanding request is
completed and its response delivered once; a response for a request that is
no longer outstanding is discarded. -/
def lcb_INSTANCE.deliver_final (I : lcb_INSTANCE) (handle : Nat) : lcb_INSTANCE :=
  if (handle, request_state.in_flight) ∈ I.requests then
    (I.complete handle).notify handle true
  else I

/-- Modelled from the spec: `lcb_wait`, not part of the sources, runs the
loop until every outstanding request has had its terminal response. -/
def lcb_wait (I : lcb_INSTANCE) : lcb_INSTANCE :=
  (I.requests.map (fun r => r.1)).foldl lcb_INSTANCE.deliver_final I

/-- Modelled from the spec: teardown of the request `handle`, which is not
part of the sources.  The spec: teardown synthesizes a terminal failure
response for every request still outstanding, delivered through the same
completion path as a response, exactly once.  An outstanding request is ended
and its handler invoked once with that final response; a request that is no
longer outstanding gets nothing. -/
def lcb_INSTANCE.deliver_teardown (I : lcb_INSTANCE) (handle : Nat) : lcb_INSTANCE :=
  if (handle, request_state.in_flight) ∈ I.requests then
    (I.complete handle).notify handle true
  else I

/-- Modelled from the spec: `lcb_destroy`, not part of the sources (only its
test is).  The spec: destroying the connection while an operation is
outstanding delivers exactly one teardown notification for that operation and
never invokes the handler a second time afterwards.  Every request is torn
down in turn. -/
def lcb_destroy (I : lcb_INSTANCE) : lcb_INSTANCE :=
  (I.requests.map (fun r => r.1)).foldl lcb_INSTANCE.deliver_teardown I

/-- Modelled from the spec: the instance that the fixture's `createConnection`
returns (the fixture is not part of the sources): no request submitted, no
callback installed. -/
def createConnection : lcb_INSTANCE := { callback := http_callback.default_callback }

/-- The test `TEST_F(HttpUnitTest, testDoubleCancel)`: install
`doubleCancel_callback`, submit one request, wait. -/
def testDoubleCancel : lcb_INSTANCE :=
  lcb_wait (lcb_http
    (lcb_install_callback createConnection http_callback.doubleCancel_callback)).1

theorem toInt64_eq_self (x : Int) (hlo : -(2 ^ 63) ≤ x) (hhi : x < 2 ^ 63) :
    toInt64 x = x := by
  unfold toInt64
  omega

theorem toUInt64_eq_self (x : Int) (hlo : 0 ≤ x) (hhi : x < 2 ^ 64) :
    ((toUInt64 x : Nat) : Int) = x := by
  unfold toUInt64
  omega

theorem toUInt32_natCast (n : Nat) : toUInt32 (n : Int) = n % 2 ^ 32 := by
  unfold toUInt32
  omega

/-- The microsecond count stored for a 32-bit microsecond timeout. -/
theorem micros_count (t : Nat) (ht : t < 2 ^ 32) : toInt64 (t : Int) = (t : Int) := by
  apply toInt64_eq_self <;> omega

/-- The microsecond count stored for a 32-bit millisecond timeout. -/
theorem millis_count (t : Nat) (ht : t < 2 ^ 32) :
    toInt64 (toInt64 (t : Int) * 1000) = ((1000 * t : Nat) : Int) := by
  rw [micros_count t ht]
  rw [toInt64_eq_self] <;> omega

/-- Nanosecond count returned for a stored microsecond count below `2^42`. -/
theorem nanos_of_micros (n : Nat) (hn : n < 2 ^ 42) :
    toUInt64 (toInt64 ((n : Int) * 1000)) = 1000 * n := by
  rw [toInt64_eq_self _ (by omega) (by omega)]
  unfold toUInt64
  omega

/-- Nanosecond value returned once a 32-bit microsecond timeout is stored. -/
theorem nanos_after_micros (t d : Nat) (ht : t < 2 ^ 32) :
    (if toInt64 (t : Int) > 0 then toUInt64 (toInt64 (toInt64 (t : Int) * 1000)) else d)
      = if 0 < t then 1000 * t else d := by
  rw [micros_count t ht]
  by_cases h : 0 < t
  · have h1 : (t : Int) > 0 := by omega
    rw [if_pos h1, if_pos h, nanos_of_micros t (by omega)]
  · have h1 : ¬ (t : Int) > 0 := by omega
    rw [if_neg h1, if_neg h]

/-- Nanosecond value returned once a 32-bit millisecond timeout is stored. -/
theorem nanos_after_millis (t d : Nat) (ht : t < 2 ^ 32) :
    (if toInt64 (toInt64 (t : Int) * 1000) > 0
        then toUInt64 (toInt64 (toInt64 (toInt64 (t : Int) * 1000) * 1000)) else d)
      = if 0 < t then 1000000 * t else d := by
  rw [millis_count t ht]
  by_cases h : 0 < t
  · have h1 : ((1000 * t : Nat) : Int) > 0 := by omega
    rw [if_pos h1, if_pos h, nanos_of_micros _ (by omega)]
    omega
  · have h1 : ¬ ((1000 * t : Nat) : Int) > 0 := by omega
    rw [if_neg h1, if_neg h]

/-! ## Counter command: expiry and auto-create -/

/-- C1: for every counter command `c` and every expiry `e`, `c.expiry(e)`
returns `LCB_ERR_OPTIONS_CONFLICT` exactly when `initialize_if_does_not_exist()`
is false and `LCB_SUCCESS` exactly when it is true; in particular it is rejected
on a fresh command and accepted right after `initialize_with`. -/
theorem C1_expiry_conflict_iff (c : lcb_CMDCOUNTER_) (e v : Nat) :
    ((c.expiry e).1 = lcb_STATUS.LCB_ERR_OPTIONS_CONFLICT
        ↔ c.initialize_if_does_not_exist = false) ∧
    ((c.expiry e).1 = lcb_STATUS.LCB_SUCCESS
        ↔ c.initialize_if_does_not_exist = true) ∧
    (lcb_CMDCOUNTER_.fresh.expiry e).1 = lcb_STATUS.LCB_ERR_OPTIONS_CONFLICT ∧
    ((c.initialize_with v).2.expiry e).1 = lcb_STATUS.LCB_SUCCESS := by
  refine ⟨?_, ?_, rfl, rfl⟩ <;>
    cases h : c.initialize_if_does_not_exist_ <;>
    simp [lcb_CMDCOUNTER_.expiry, lcb_CMDCOUNTER_.initialize_if_does_not_exist, h]

/-- C2 (as stated, refuted): on a fresh counter command `expiry(5)` returns
`LCB_ERR_OPTIONS_CONFLICT`, and after the following `initialize_with(7)` the
getter `expiry()` returns 0, not 5. -/
theorem C2_expiry_before_initialize_fails :
    (lcb_CMDCOUNTER_.fresh.expiry 5).1 = lcb_STATUS.LCB_ERR_OPTIONS_CONFLICT ∧
    ((lcb_CMDCOUNTER_.fresh.expiry 5).2.initialize_with 7).2.expiry_const = 0 ∧
    ¬ ((lcb_CMDCOUNTER_.fresh.expiry 5).1 = lcb_STATUS.LCB_SUCCESS ∧
        ((lcb_CMDCOUNTER_.fresh.expiry 5).2.initialize_with 7).1 = lcb_STATUS.LCB_SUCCESS ∧
        ((lcb_CMDCOUNTER_.fresh.expiry 5).2.initialize_with 7).2.expiry_const = 5 ∧
        ((lcb_CMDCOUNTER_.fresh.expiry 5).2.initialize_with 7).2.initial_value = 7 ∧
        ((lcb_CMDCOUNTER_.fresh.expiry 5).2.initialize_with 7).2.initialize_if_does_not_exist
          = true) := by
  decide

/-- C2 (amended): on a fresh counter command, `expiry(e)` before
`initialize_with` returns `LCB_ERR_OPTIONS_CONFLICT` and leaves the command
fresh; the following `initialize_with(v)` returns `LCB_SUCCESS`, after which
`expiry()` is 0, `initial_value()` is `v` and the flag is true.  In the other
order, `initialize_with(v)` followed by `expiry(e)`, both return `LCB_SUCCESS`
and afterwards `expiry()` is `e`, `initial_value()` is `v` and the flag is
true. -/
theorem C2_expiry_and_initialize_order (e v : Nat) :
    (lcb_CMDCOUNTER_.fresh.expiry e).1 = lcb_STATUS.LCB_ERR_OPTIONS_CONFLICT ∧
    (lcb_CMDCOUNTER_.fresh.expiry e).2 = lcb_CMDCOUNTER_.fresh ∧
    ((lcb_CMDCOUNTER_.fresh.expiry e).2.initialize_with v).1 = lcb_STATUS.LCB_SUCCESS ∧
    ((lcb_CMDCOUNTER_.fresh.expiry e).2.initialize_with v).2.expiry_const = 0 ∧
    ((lcb_CMDCOUNTER_.fresh.expiry e).2.initialize_with v).2.initial_value = v ∧
    ((lcb_CMDCOUNTER_.fresh.expiry e).2.initialize_with v).2.initialize_if_does_not_exist
      = true ∧
    (lcb_CMDCOUNTER_.fresh.initialize_with v).1 = lcb_STATUS.LCB_SUCCESS ∧
    ((lcb_CMDCOUNTER_.fresh.initialize_with v).2.expiry e).1 = lcb_STATUS.LCB_SUCCESS ∧
    ((lcb_CMDCOUNTER_.fresh.initialize_with v).2.expiry e).2.expiry_const = e ∧
    ((lcb_CMDCOUNTER_.fresh.initialize_with v).2.expiry e).2.initial_value = v ∧
    ((lcb_CMDCOUNTER_.fresh.initialize_with v).2.expiry e).2.initialize_if_does_not_exist
      = true := by
  refine ⟨rfl, rfl, rfl, rfl, rfl, rfl, rfl, rfl, rfl, rfl, rfl⟩

/-- C3: a rejected `expiry` call changes nothing: when `c.expiry(e)` returns
`LCB_ERR_OPTIONS_CONFLICT` the command afterwards is the command before, so
`expiry()`, `key()`, `delta()`, `initial_value()`,
`initialize_if_does_not_exist()`, `durability_level()`, the timeout and the
start time read as before. -/
theorem C3_rejected_expiry_unchanged (c : lcb_CMDCOUNTER_) (e d : Nat)
    (h : (c.expiry e).1 = lcb_STATUS.LCB_ERR_OPTIONS_CONFLICT) :
    (c.expiry e).2 = c ∧
    (c.expiry e).2.expiry_const = c.expiry_const ∧
    (c.expiry e).2.key_const = c.key_const ∧
    (c.expiry e).2.delta_const = c.delta_const ∧
    (c.expiry e).2.initial_value = c.initial_value ∧
    (c.expiry e).2.initialize_if_does_not_exist = c.initialize_if_does_not_exist ∧
    (c.expiry e).2.durability_level_const = c.durability_level_const ∧
    (c.expiry e).2.timeout_in_microseconds_const = c.timeout_in_microseconds_const ∧
    (c.expiry e).2.timeout_or_default_in_nanoseconds d
      = c.timeout_or_default_in_nanoseconds d ∧
    (c.expiry e).2.start_time_or_default_in_nanoseconds d
      = c.start_time_or_default_in_nanoseconds d := by
  have hc : (c.expiry e).2 = c := by
    unfold lcb_CMDCOUNTER_.expiry at h ⊢
    cases hf : c.initialize_if_does_not_exist_ <;> simp [hf] at h ⊢
  rw [hc]
  simp

/-- Witness for C3 on the fresh command with expiry 5. -/
theorem C3_rejected_expiry_unchanged_witness :
    (lcb_CMDCOUNTER_.fresh.expiry 5).1 = lcb_STATUS.LCB_ERR_OPTIONS_CONFLICT ∧
    (lcb_CMDCOUNTER_.fresh.expiry 5).2 = lcb_CMDCOUNTER_.fresh :=
  ⟨by decide, (C3_rejected_expiry_unchanged lcb_CMDCOUNTER_.fresh 5 0 (by decide)).1⟩

/-- C4: the counter expiry is stored as given: on every command whose
auto-create flag is set (in particular right after `initialize_with`), for
every `e` (0 and `2^32 - 1` included) `expiry(e)` returns `LCB_SUCCESS` and
`expiry()` then returns exactly `e`; on a fresh command `expiry()` is 0. -/
theorem C4_expiry_preserved (c c₀ : lcb_CMDCOUNTER_) (e v : Nat)
    (hc : c.initialize_if_does_not_exist = true) :
    (c.expiry e).1 = lcb_STATUS.LCB_SUCCESS ∧
    (c.expiry e).2.expiry_const = e ∧
    ((c₀.initialize_with v).2.expiry e).1 = lcb_STATUS.LCB_SUCCESS ∧
    ((c₀.initialize_with v).2.expiry e).2.expiry_const = e ∧
    lcb_CMDCOUNTER_.fresh.expiry_const = 0 := by
  simp only [lcb_CMDCOUNTER_.initialize_if_does_not_exist] at hc
  refine ⟨?_, ?_, rfl, rfl, rfl⟩ <;>
    simp [lcb_CMDCOUNTER_.expiry, lcb_CMDCOUNTER_.expiry_const, hc]

/-- Witness for C4 at the largest 32-bit expiry, `2^32 - 1`. -/
theorem C4_expiry_preserved_witness :
    (lcb_CMDCOUNTER_.fresh.initialize_with 0).2.initialize_if_does_not_exist = true ∧
    ((lcb_CMDCOUNTER_.fresh.initialize_with 0).2.expiry 4294967295).1
      = lcb_STATUS.LCB_SUCCESS ∧
    ((lcb_CMDCOUNTER_.fresh.initialize_with 0).2.expiry 4294967295).2.expiry_const
      = 4294967295 :=
  ⟨rfl,
   (C4_expiry_preserved (lcb_CMDCOUNTER_.fresh.initialize_with 0).2 lcb_CMDCOUNTER_.fresh
      4294967295 0 rfl).1,
   (C4_expiry_preserved (lcb_CMDCOUNTER_.fresh.initialize_with 0).2 lcb_CMDCOUNTER_.fresh
      4294967295 0 rfl).2.1⟩

/-! ## Timeouts -/

/-- C5: for counter and get-replica commands alike,
`timeout_or_default_in_nanoseconds(d)` returns `d` on a fresh command; after
`timeout_in_microseconds(t)` it returns `1000 * t` when `t > 0` and `d` when
`t = 0`; after `timeout_in_milliseconds(t)` it returns `1000000 * t` when
`t > 0` and `d` when `t = 0`; for every 32-bit `t` and 64-bit `d`, the result
being the exact product and below `2^64`. -/
theorem C5_timeout_or_default (c : lcb_CMDCOUNTER_) (g : lcb_CMDGETREPLICA_) (t d : Nat)
    (ht : t < 2 ^ 32) (hd : d < 2 ^ 64) :
    (lcb_CMDCOUNTER_.fresh.timeout_or_default_in_nanoseconds d = d ∧
     (c.timeout_in_microseconds t).2.timeout_or_default_in_nanoseconds d
        = (if 0 < t then 1000 * t else d) ∧
     (c.timeout_in_milliseconds t).2.timeout_or_default_in_nanoseconds d
        = (if 0 < t then 1000000 * t else d) ∧
     (c.timeout_in_microseconds t).2.timeout_or_default_in_nanoseconds d < 2 ^ 64 ∧
     (c.timeout_in_milliseconds t).2.timeout_or_default_in_nanoseconds d < 2 ^ 64) ∧
    (lcb_CMDGETREPLICA_.fresh.timeout_or_default_in_nanoseconds d = d ∧
     (g.timeout_in_microseconds t).2.timeout_or_default_in_nanoseconds d
        = (if 0 < t then 1000 * t else d) ∧
     (g.timeout_in_milliseconds t).2.timeout_or_default_in_nanoseconds d
        = (if 0 < t then 1000000 * t else d) ∧
     (g.timeout_in_microseconds t).2.timeout_or_default_in_nanoseconds d < 2 ^ 64 ∧
     (g.timeout_in_milliseconds t).2.timeout_or_default_in_nanoseconds d < 2 ^ 64) := by
  have hus : (c.timeout_in_microseconds t).2.timeout_or_default_in_nanoseconds d
      = (if 0 < t then 1000 * t else d) := nanos_after_micros t d ht
  have hms : (c.timeout_in_milliseconds t).2.timeout_or_default_in_nanoseconds d
      = (if 0 < t then 1000000 * t else d) := nanos_after_millis t d ht
  have gus : (g.timeout_in_microseconds t).2.timeout_or_default_in_nanoseconds d
      = (if 0 < t then 1000 * t else d) := nanos_after_micros t d ht
  have gms : (g.timeout_in_milliseconds t).2.timeout_or_default_in_nanoseconds d
      = (if 0 < t then 1000000 * t else d) := nanos_after_millis t d ht
  have b1 : (if 0 < t then 1000 * t else d) < 2 ^ 64 := by split <;> omega
  have b2 : (if 0 < t then 1000000 * t else d) < 2 ^ 64 := by split <;> omega
  refine ⟨⟨rfl, hus, hms, ?_, ?_⟩, ⟨rfl, gus, gms, ?_, ?_⟩⟩
  · rw [hus]; exact b1
  · rw [hms]; exact b2
  · rw [gus]; exact b1
  · rw [gms]; exact b2

/-- Witness for C5 at the largest 32-bit timeout and the largest 64-bit
default: `2^32 - 1` milliseconds read back as `4294967295000000` ns. -/
theorem C5_timeout_or_default_witness :
    (4294967295 : Nat) < 2 ^ 32 ∧ (18446744073709551615 : Nat) < 2 ^ 64 ∧
    (lcb_CMDCOUNTER_.fresh.timeout_in_milliseconds 4294967295).2.timeout_or_default_in_nanoseconds
        18446744073709551615 = 4294967295000000 ∧
    (lcb_CMDGETREPLICA_.fresh.timeout_in_microseconds 4294967295).2.timeout_or_default_in_nanoseconds
        18446744073709551615 = 4294967295000 :=
  ⟨by decide, by decide,
   (C5_timeout_or_default lcb_CMDCOUNTER_.fresh lcb_CMDGETREPLICA_.fresh 4294967295
      18446744073709551615 (by decide) (by decide)).1.2.2.1,
   (C5_timeout_or_default lcb_CMDCOUNTER_.fresh lcb_CMDGETREPLICA_.fresh 4294967295
      18446744073709551615 (by decide) (by decide)).2.2.1⟩

/-- C6 (as stated, refuted): after `timeout_in_milliseconds(4294968)` the
getter `timeout_in_microseconds()` returns 704, not `1000 * 4294968`, on a
counter command and on a get-replica command. -/
theorem C6_millis_readback_truncated :
    (lcb_CMDCOUNTER_.fresh.timeout_in_milliseconds 4294968).2.timeout_in_microseconds_const
      = 704 ∧
    (lcb_CMDCOUNTER_.fresh.timeout_in_milliseconds 4294968).2.timeout_in_microseconds_const
      ≠ 1000 * 4294968 ∧
    (lcb_CMDGETREPLICA_.fresh.timeout_in_milliseconds 4294968).2.timeout_in_microseconds_const
      = 704 ∧
    (lcb_CMDGETREPLICA_.fresh.timeout_in_milliseconds 4294968).2.timeout_in_microseconds_const
      ≠ 1000 * 4294968 := by
  decide

/-- C6 (amended): for every 32-bit `t`, after `timeout_in_microseconds(t)` the
getter `timeout_in_microseconds()` returns `t`; after
`timeout_in_milliseconds(t)` it returns `1000 * t` reduced modulo `2^32`, which
is `1000 * t` itself exactly when `t ≤ 4294967`; for counter and get-replica
commands alike. -/
theorem C6_timeout_readback (c : lcb_CMDCOUNTER_) (g : lcb_CMDGETREPLICA_) (t : Nat)
    (ht : t < 2 ^ 32) :
    ((c.timeout_in_microseconds t).2.timeout_in_microseconds_const = t ∧
     (c.timeout_in_milliseconds t).2.timeout_in_microseconds_const = (1000 * t) % 2 ^ 32 ∧
     ((c.timeout_in_milliseconds t).2.timeout_in_microseconds_const = 1000 * t
        ↔ t ≤ 4294967)) ∧
    ((g.timeout_in_microseconds t).2.timeout_in_microseconds_const = t ∧
     (g.timeout_in_milliseconds t).2.timeout_in_microseconds_const = (1000 * t) % 2 ^ 32 ∧
     ((g.timeout_in_milliseconds t).2.timeout_in_microseconds_const = 1000 * t
        ↔ t ≤ 4294967)) := by
  have hus : toUInt32 (toInt64 (t : Int)) = t := by
    rw [micros_count t ht, toUInt32_natCast]; omega
  have hms : toUInt32 (toInt64 (toInt64 (t : Int) * 1000)) = (1000 * t) % 2 ^ 32 := by
    rw [millis_count t ht, toUInt32_natCast]
  have hiff : (1000 * t) % 2 ^ 32 = 1000 * t ↔ t ≤ 4294967 := by omega
  refine ⟨⟨hus, hms, ?_⟩, ⟨hus, hms, ?_⟩⟩
  · show toUInt32 (toInt64 (toInt64 (t : Int) * 1000)) = 1000 * t ↔ t ≤ 4294967
    rw [hms]; exact hiff
  · show toUInt32 (toInt64 (toInt64 (t : Int) * 1000)) = 1000 * t ↔ t ≤ 4294967
    rw [hms]; exact hiff

/-- Witness for C6 (amended) at `t = 4294967`, the largest millisecond timeout
that reads back exactly. -/
theorem C6_timeout_readback_witness :
    (4294967 : Nat) < 2 ^ 32 ∧
    (lcb_CMDCOUNTER_.fresh.timeout_in_microseconds 4294967).2.timeout_in_microseconds_const
      = 4294967 ∧
    (lcb_CMDGETREPLICA_.fresh.timeout_in_milliseconds 4294967).2.timeout_in_microseconds_const
      = 1000 * 4294967 :=
  ⟨by decide,
   (C6_timeout_readback lcb_CMDCOUNTER_.fresh lcb_CMDGETREPLICA_.fresh 4294967 (by decide)).1.1,
   (C6_timeout_readback lcb_CMDCOUNTER_.fresh lcb_CMDGETREPLICA_.fresh 4294967
      (by decide)).2.2.2.mpr (by decide)⟩

/-! ## Get-replica command: mode and replica index -/

/-- C7: for every get-replica command and every `int` `i`, `select_index(i)`
returns `LCB_SUCCESS`, leaves the command in mode `select`, and makes
`selected_replica_index()` return exactly `i`. -/
theorem C7_select_index (g : lcb_CMDGETREPLICA_) (i : Int) :
    (g.select_index i).1 = lcb_STATUS.LCB_SUCCESS ∧
    (g.select_index i).2.mode_const = get_replica_mode.select ∧
    (g.select_index i).2.selected_replica_index = i :=
  ⟨rfl, rfl, rfl⟩

/-- C8: for every get-replica command, `need_get_active()` is true exactly
when `mode()` is `all`; the fresh command is in mode `any` and does not need
the active copy, and neither does a command set to `any`, set to `select`, or
given a replica index, while a command set to `all` does. -/
theorem C8_need_get_active (g : lcb_CMDGETREPLICA_) (i : Int) :
    (g.need_get_active = true ↔ g.mode_const = get_replica_mode.all) ∧
    lcb_CMDGETREPLICA_.fresh.mode_const = get_replica_mode.any ∧
    lcb_CMDGETREPLICA_.fresh.need_get_active = false ∧
    (g.mode get_replica_mode.any).2.need_get_active = false ∧
    (g.mode get_replica_mode.select).2.need_get_active = false ∧
    (g.select_index i).2.need_get_active = false ∧
    (g.mode get_replica_mode.all).2.need_get_active = true := by
  refine ⟨?_, rfl, rfl, rfl, rfl, rfl, rfl⟩
  simp [lcb_CMDGETREPLICA_.need_get_active, lcb_CMDGETREPLICA_.mode_const]

/-! ## Counter command: durability and initial value -/

/-- C9: for every counter command, `has_durability_requirements()` is true if
and only if `durability_level()` is not `LCB_DURABILITYLEVEL_NONE`; it is false
on a fresh command, and after `durability_level(l)` (which returns
`LCB_SUCCESS`) it equals `l != LCB_DURABILITYLEVEL_NONE` while
`durability_level()` returns `l`. -/
theorem C9_has_durability_requirements (c : lcb_CMDCOUNTER_) (l : lcb_DURABILITY_LEVEL) :
    (c.has_durability_requirements = true
        ↔ c.durability_level_const ≠ lcb_DURABILITY_LEVEL.LCB_DURABILITYLEVEL_NONE) ∧
    lcb_CMDCOUNTER_.fresh.has_durability_requirements = false ∧
    (c.durability_level l).1 = lcb_STATUS.LCB_SUCCESS ∧
    (c.durability_level l).2.has_durability_requirements
      = (l != lcb_DURABILITY_LEVEL.LCB_DURABILITYLEVEL_NONE) ∧
    (c.durability_level l).2.durability_level_const = l := by
  refine ⟨?_, rfl, rfl, rfl, rfl⟩
  simp [lcb_CMDCOUNTER_.has_durability_requirements, lcb_CMDCOUNTER_.durability_level_const]

/-- C10: for every counter command and every `v` (0 included),
`initialize_with(v)` returns `LCB_SUCCESS` and afterwards
`initialize_if_does_not_exist()` is true and `initial_value()` is `v`; on a
fresh command the flag is false and `initial_value()` is 0, and
`initialize_with(0)` on a fresh command changes the flag and nothing else. -/
theorem C10_initialize_with (c : lcb_CMDCOUNTER_) (v : Nat) :
    (c.initialize_with v).1 = lcb_STATUS.LCB_SUCCESS ∧
    (c.initialize_with v).2.initialize_if_does_not_exist = true ∧
    (c.initialize_with v).2.initial_value = v ∧
    lcb_CMDCOUNTER_.fresh.initialize_if_does_not_exist = false ∧
    lcb_CMDCOUNTER_.fresh.initial_value = 0 ∧
    (lcb_CMDCOUNTER_.fresh.initialize_with 0).2.initial_value
      = lcb_CMDCOUNTER_.fresh.initial_value ∧
    (lcb_CMDCOUNTER_.fresh.initialize_with 0).2
      = { lcb_CMDCOUNTER_.fresh with initialize_if_does_not_exist_ := true } ∧
    (lcb_CMDCOUNTER_.fresh.initialize_with 0).2 ≠ lcb_CMDCOUNTER_.fresh := by
  refine ⟨rfl, rfl, rfl, rfl, rfl, rfl, rfl, ?_⟩
  decide

/-! ## Setters: statuses, reachable states, frame -/

/-- No call of a counter member other than `initialize_with` and `expiry`
touches the auto-create flag, and neither of those clears it. -/
theorem counter_flag_kept (c : lcb_CMDCOUNTER_) (k : lcb_CMDCOUNTER_.Call)
    (h : c.initialize_if_does_not_exist_ = true) :
    (lcb_CMDCOUNTER_.Call.run c k).2.initialize_if_does_not_exist_ = true := by
  cases k <;> simp [lcb_CMDCOUNTER_.Call.run, lcb_CMDCOUNTER_.expiry, lcb_CMDCOUNTER_.key,
    lcb_CMDCOUNTER_.collection, lcb_CMDCOUNTER_.parent_span,
    lcb_CMDCOUNTER_.timeout_in_milliseconds, lcb_CMDCOUNTER_.timeout_in_microseconds,
    lcb_CMDCOUNTER_.start_time_in_nanoseconds, lcb_CMDCOUNTER_.delta,
    lcb_CMDCOUNTER_.initialize_with, lcb_CMDCOUNTER_.durability_level,
    lcb_CMDCOUNTER_.cookie, h]

/-- The auto-create flag, once set, stays set along every sequence of calls. -/
theorem counter_flag_kept_all (ks : List lcb_CMDCOUNTER_.Call) :
    ∀ c : lcb_CMDCOUNTER_, c.initialize_if_does_not_exist_ = true →
      (lcb_CMDCOUNTER_.run_all c ks).initialize_if_does_not_exist_ = true := by
  induction ks with
  | nil => intro c h; exact h
  | cons k ks ih => intro c h; exact ih _ (counter_flag_kept c k h)

/-- One call keeps the property "the expiry is zero or the flag is set". -/
theorem counter_expiry_inv_step (c : lcb_CMDCOUNTER_) (k : lcb_CMDCOUNTER_.Call)
    (h : c.expiry_ = 0 ∨ c.initialize_if_does_not_exist_ = true) :
    (lcb_CMDCOUNTER_.Call.run c k).2.expiry_ = 0 ∨
      (lcb_CMDCOUNTER_.Call.run c k).2.initialize_if_does_not_exist_ = true := by
  cases hf : c.initialize_if_does_not_exist_
  · have h0 : c.expiry_ = 0 := by
      rcases h with h | h
      · exact h
      · rw [hf] at h; exact absurd h (by decide)
    cases k <;> simp [lcb_CMDCOUNTER_.Call.run, lcb_CMDCOUNTER_.expiry, lcb_CMDCOUNTER_.key,
      lcb_CMDCOUNTER_.collection, lcb_CMDCOUNTER_.parent_span,
      lcb_CMDCOUNTER_.timeout_in_milliseconds, lcb_CMDCOUNTER_.timeout_in_microseconds,
      lcb_CMDCOUNTER_.start_time_in_nanoseconds, lcb_CMDCOUNTER_.delta,
      lcb_CMDCOUNTER_.initialize_with, lcb_CMDCOUNTER_.durability_level,
      lcb_CMDCOUNTER_.cookie, hf, h0]
  · exact Or.inr (counter_flag_kept c k hf)

/-- Every sequence of calls keeps "the expiry is zero or the flag is set". -/
theorem counter_expiry_inv_all (ks : List lcb_CMDCOUNTER_.Call) :
    ∀ c : lcb_CMDCOUNTER_, (c.expiry_ = 0 ∨ c.initialize_if_does_not_exist_ = true) →
      ((lcb_CMDCOUNTER_.run_all c ks).expiry_ = 0 ∨
        (lcb_CMDCOUNTER_.run_all c ks).initialize_if_does_not_exist_ = true) := by
  induction ks with
  | nil => intro c h; exact h
  | cons k ks ih => intro c h; exact ih _ (counter_expiry_inv_step c k h)

/-- C11: field validation of the command descriptors.  On a counter command
every call of a status-returning member other than `expiry` returns
`LCB_SUCCESS`, and `expiry` returns `LCB_ERR_OPTIONS_CONFLICT` exactly when the
auto-create flag is unset (so it does fail on a fresh command); on a
get-replica command every call of a status-returning member returns
`LCB_SUCCESS`; for every argument and prior state.  An empty key, a negative
replica index, a negative delta and a zero timeout are accepted. -/
theorem C11_setter_statuses (c : lcb_CMDCOUNTER_) (g : lcb_CMDGETREPLICA_)
    (k : lcb_CMDCOUNTER_.Call) (j : lcb_CMDGETREPLICA_.Call) (e : Nat) :
    (lcb_CMDCOUNTER_.Call.run c k).1
      = (if k.is_cookie then none
         else if k.is_expiry && !c.initialize_if_does_not_exist
           then some lcb_STATUS.LCB_ERR_OPTIONS_CONFLICT
           else some lcb_STATUS.LCB_SUCCESS) ∧
    ((lcb_CMDCOUNTER_.Call.run c k).1 = some lcb_STATUS.LCB_SUCCESS ∨
      k.is_expiry = true ∨ k.is_cookie = true) ∧
    (lcb_CMDCOUNTER_.fresh.expiry e).1 ≠ lcb_STATUS.LCB_SUCCESS ∧
    (lcb_CMDGETREPLICA_.Call.run g j).1
      = (if j.is_cookie then none else some lcb_STATUS.LCB_SUCCESS) ∧
    (c.key "").1 = lcb_STATUS.LCB_SUCCESS ∧
    (g.key "").1 = lcb_STATUS.LCB_SUCCESS ∧
    (g.select_index (-1)).1 = lcb_STATUS.LCB_SUCCESS ∧
    (c.delta (-1)).1 = lcb_STATUS.LCB_SUCCESS ∧
    (c.timeout_in_microseconds 0).1 = lcb_STATUS.LCB_SUCCESS ∧
    (c.timeout_in_milliseconds 0).1 = lcb_STATUS.LCB_SUCCESS ∧
    (g.timeout_in_microseconds 0).1 = lcb_STATUS.LCB_SUCCESS ∧
    (g.timeout_in_milliseconds 0).1 = lcb_STATUS.LCB_SUCCESS := by
  refine ⟨?_, ?_, ?_, ?_, rfl, rfl, rfl, rfl, rfl, rfl, rfl, rfl⟩
  · cases k <;> try rfl
    cases hf : c.initialize_if_does_not_exist_ <;>
      simp [lcb_CMDCOUNTER_.Call.run, lcb_CMDCOUNTER_.Call.is_cookie,
        lcb_CMDCOUNTER_.Call.is_expiry, lcb_CMDCOUNTER_.expiry,
        lcb_CMDCOUNTER_.initialize_if_does_not_exist, hf]
  · cases k <;> first
      | exact Or.inl rfl
      | exact Or.inr (Or.inl rfl)
      | exact Or.inr (Or.inr rfl)
  · simp [lcb_CMDCOUNTER_.fresh, lcb_CMDCOUNTER_.expiry]
  · cases j <;> rfl

/-- C16: in every state reached from a fresh counter command by a sequence of
calls of its members, `expiry()` is zero or `initialize_if_does_not_exist()`
is true; and after `initialize_with`, whatever calls follow, the flag is still
true and a further `expiry` call returns `LCB_SUCCESS`. -/
theorem C16_expiry_implies_auto_create (c : lcb_CMDCOUNTER_)
    (ks : List lcb_CMDCOUNTER_.Call) (v e : Nat) :
    ((lcb_CMDCOUNTER_.run_all lcb_CMDCOUNTER_.fresh ks).expiry_const = 0 ∨
      (lcb_CMDCOUNTER_.run_all lcb_CMDCOUNTER_.fresh ks).initialize_if_does_not_exist
        = true) ∧
    (lcb_CMDCOUNTER_.run_all (c.initialize_with v).2 ks).initialize_if_does_not_exist
      = true ∧
    ((lcb_CMDCOUNTER_.run_all (c.initialize_with v).2 ks).expiry e).1
      = lcb_STATUS.LCB_SUCCESS := by
  have hflag := counter_flag_kept_all ks (c.initialize_with v).2 rfl
  refine ⟨counter_expiry_inv_all ks lcb_CMDCOUNTER_.fresh (Or.inl rfl), hflag, ?_⟩
  simp [lcb_CMDCOUNTER_.expiry, hflag]

/-- C17: for counter and get-replica commands and every 64-bit `v`, after
`start_time_in_nanoseconds(v)` the getter
`start_time_or_default_in_nanoseconds(d)` returns `d` when `v = 0` and exactly
`v` otherwise, also for `v ≥ 2^63`, where the stored signed count is
`v - 2^64`; on a fresh command it returns `d`. -/
theorem C17_start_time_roundtrip (c : lcb_CMDCOUNTER_) (g : lcb_CMDGETREPLICA_) (v d : Nat)
    (hv : v < 2 ^ 64) :
    (c.start_time_in_nanoseconds v).2.start_time_or_default_in_nanoseconds d
      = (if v = 0 then d else v) ∧
    (g.start_time_in_nanoseconds v).2.start_time_or_default_in_nanoseconds d
      = (if v = 0 then d else v) ∧
    (c.start_time_in_nanoseconds v).2.start_time_
      = (if v < 2 ^ 63 then (v : Int) else (v : Int) - 2 ^ 64) ∧
    (g.start_time_in_nanoseconds v).2.start_time_
      = (if v < 2 ^ 63 then (v : Int) else (v : Int) - 2 ^ 64) ∧
    lcb_CMDCOUNTER_.fresh.start_time_or_default_in_nanoseconds d = d ∧
    lcb_CMDGETREPLICA_.fresh.start_time_or_default_in_nanoseconds d = d := by
  have hst : toInt64 (v : Int) = (if v < 2 ^ 63 then (v : Int) else (v : Int) - 2 ^ 64) := by
    unfold toInt64
    split <;> omega
  have hzero : toInt64 (v : Int) = 0 ↔ v = 0 := by
    unfold toInt64
    omega
  have hback : toUInt64 (toInt64 (v : Int)) = v := by
    unfold toUInt64 toInt64
    omega
  have hget : (if toInt64 (v : Int) = 0 then d else toUInt64 (toInt64 (v : Int)))
      = (if v = 0 then d else v) := by
    rw [hback]
    by_cases h0 : v = 0
    · rw [if_pos h0, if_pos (hzero.mpr h0)]
    · rw [if_neg h0, if_neg (fun h => h0 (hzero.mp h))]
  exact ⟨hget, hget, hst, hst, rfl, rfl⟩

/-- Witness for C17 at `v = 2^63`, the first value whose signed count is
negative. -/
theorem C17_start_time_roundtrip_witness :
    (9223372036854775808 : Nat) < 2 ^ 64 ∧
    (lcb_CMDCOUNTER_.fresh.start_time_in_nanoseconds
        9223372036854775808).2.start_time_or_default_in_nanoseconds 7
      = 9223372036854775808 ∧
    (lcb_CMDGETREPLICA_.fresh.start_time_in_nanoseconds
        9223372036854775808).2.start_time_or_default_in_nanoseconds 7
      = 9223372036854775808 :=
  ⟨by decide,
   (C17_start_time_roundtrip lcb_CMDCOUNTER_.fresh lcb_CMDGETREPLICA_.fresh
      9223372036854775808 7 (by decide)).1,
   (C17_start_time_roundtrip lcb_CMDCOUNTER_.fresh lcb_CMDGETREPLICA_.fresh
      9223372036854775808 7 (by decide)).2.1⟩

/-- C18: every call of a member of `lcb_CMDCOUNTER_` or `lcb_CMDGETREPLICA_`
changes only the fields that member owns.  `initialize_with` changes only the
auto-create flag and the initial value (the expiry and the delta are kept);
`select_index` changes only the mode and the selected index; `mode(m)` changes
only the mode, so `selected_replica_index()` keeps the value of the last
`select_index` call, and is 0 on a fresh command, also after `mode(select)`. -/
theorem C18_setters_frame (c : lcb_CMDCOUNTER_) (g : lcb_CMDGETREPLICA_)
    (k : lcb_CMDCOUNTER_.Call) (j : lcb_CMDGETREPLICA_.Call)
    (v : Nat) (i : Int) (m : get_replica_mode) :
    (lcb_CMDCOUNTER_.Call.run c k).2 = k.own_fields c (lcb_CMDCOUNTER_.Call.run c k).2 ∧
    (lcb_CMDGETREPLICA_.Call.run g j).2
      = j.own_fields g (lcb_CMDGETREPLICA_.Call.run g j).2 ∧
    (c.initialize_with v).2
      = { c with initialize_if_does_not_exist_ := true, initial_value_ := v } ∧
    (c.initialize_with v).2.expiry_const = c.expiry_const ∧
    (c.initialize_with v).2.delta_const = c.delta_const ∧
    (g.select_index i).2 = { g with mode_ := get_replica_mode.select, select_index_ := i } ∧
    (g.mode m).2 = { g with mode_ := m } ∧
    (g.mode m).2.selected_replica_index = g.selected_replica_index ∧
    ((g.select_index i).2.mode m).2.selected_replica_index = i ∧
    lcb_CMDGETREPLICA_.fresh.selected_replica_index = 0 ∧
    (lcb_CMDGETREPLICA_.fresh.mode get_replica_mode.select).2.selected_replica_index = 0 := by
  refine ⟨?_, ?_, rfl, rfl, rfl, rfl, rfl, rfl, rfl, rfl, rfl⟩
  · cases k <;> try rfl
    rcases c with ⟨q, ex, iv, dl, tm, st, ps, ck, ky, fl, du⟩
    cases fl <;> rfl
  · cases j <;> rfl

/-! ## Connection: delivery of the connect and open callbacks -/

/-- Releasing a cookie invokes nothing. -/
theorem delete_cookie_no_call (o : Option Cookie) :
    (Connection.delete_cookie o).filter Effect.is_Cookie_Call = [] := by
  cases o <;> rfl

/-- Releasing a cookie does not count as an invocation of any cookie. -/
theorem delete_cookie_countP (ck : Cookie) (o : Option Cookie) :
    (Connection.delete_cookie o).countP (Effect.calls ck) = 0 := by
  cases o <;> rfl

/-- The connection after `fnConnect`: unchanged when the argument check
fails, else with the new connect cookie pending. -/
theorem fnConnect_state (K : lcb_h) (me : Connection) (info : List JsValue) (ec : Int) :
    (Connection.fnConnect K me info ec).2.1
      = if info.length ≠ 1 then me
        else { me with
                _bootstrapCookie := some {
                  name := "connect", callback := info.getD 0 JsValue.undefined } } := by
  unfold Connection.fnConnect
  split
  · rfl
  · split <;> rfl

/-- The calls made by `fnConnect`. -/
theorem fnConnect_effects (K : lcb_h) (me : Connection) (info : List JsValue) (ec : Int) :
    (Connection.fnConnect K me info ec).2.2
      = if info.length ≠ 1 then []
        else Connection.delete_cookie me._bootstrapCookie ++
          [Effect.lcb_connect me._instance] := by
  unfold Connection.fnConnect
  split
  · rfl
  · split <;> rfl

/-- The connection after `fnSelectBucket`: unchanged when an argument check
fails, else with the new open cookie pending. -/
theorem fnSelectBucket_state (K : lcb_h) (me : Connection) (info : List JsValue) (ec : Int) :
    (Connection.fnSelectBucket K me info ec).2.1
      = if info.length ≠ 2 ∨ (info.getD 0 JsValue.undefined).IsString = false then me
        else { me with
                _openCookie := some {
                  name := "open", callback := info.getD 1 JsValue.undefined } } := by
  unfold Connection.fnSelectBucket
  by_cases hlen : info.length = 2
  · cases hs : (info.getD 0 JsValue.undefined).IsString
    · simp [hlen, hs]
    · by_cases hec : ec = K.LCB_SUCCESS <;> simp [hlen, hs, hec]
  · simp [hlen]

/-- The calls made by `fnSelectBucket`. -/
theorem fnSelectBucket_effects (K : lcb_h) (me : Connection) (info : List JsValue)
    (ec : Int) :
    (Connection.fnSelectBucket K me info ec).2.2
      = if info.length ≠ 2 ∨ (info.getD 0 JsValue.undefined).IsString = false then []
        else Connection.delete_cookie me._openCookie ++
          [Effect.lcb_open me._instance (info.getD 0 JsValue.undefined).Utf8String] := by
  unfold Connection.fnSelectBucket
  by_cases hlen : info.length = 2
  · cases hs : (info.getD 0 JsValue.undefined).IsString
    · simp [hlen, hs]
    · by_cases hec : ec = K.LCB_SUCCESS <;> simp [hlen, hs, hec]
  · simp [hlen]

/-- Replacing the pending connect cookie by `new` adds at most one pending
slot for `ck`, and only when `ck` is `new`. -/
theorem pending_set_bootstrap (me : Connection) (ck new : Cookie) :
    Connection.pending { me with _bootstrapCookie := some new } ck
      ≤ Connection.pending me ck + (if ck = new then 1 else 0) := by
  unfold Connection.pending
  by_cases h : ck = new
  · subst h; simp; omega
  · have h2 : ¬ new = ck := fun e => h e.symm
    simp [h, h2]

/-- Replacing the pending open cookie by `new` adds at most one pending slot
for `ck`, and only when `ck` is `new`. -/
theorem pending_set_open (me : Connection) (ck new : Cookie) :
    Connection.pending { me with _openCookie := some new } ck
      ≤ Connection.pending me ck + (if ck = new then 1 else 0) := by
  unfold Connection.pending
  by_cases h : ck = new
  · subst h; simp
  · have h2 : ¬ new = ck := fun e => h e.symm
    simp [h, h2]

/-- One event: the invocations of `ck` it makes plus the slots in which `ck`
is pending afterwards do not exceed the slots in which it was pending before
plus one if the event registers `ck`. -/
theorem step_calls_pending (K : lcb_h) (me : Connection) (ck : Cookie) (ev : Connection.Event) :
    (Connection.step K me ev).2.countP (Effect.calls ck)
        + Connection.pending (Connection.step K me ev).1 ck
      ≤ Connection.pending me ck + (if Connection.Event.registers ck ev then 1 else 0) := by
  cases ev with
  | fnConnect info ec =>
    simp only [Connection.step, Connection.Event.registers]
    rw [fnConnect_state, fnConnect_effects]
    by_cases hlen : info.length = 1
    · have hp := pending_set_bootstrap me ck
        { name := "connect", callback := info.getD 0 JsValue.undefined }
      have hn : ¬ info.length ≠ 1 := fun h => h hlen
      rw [if_neg hn, if_neg hn, List.countP_append, delete_cookie_countP]
      simp only [hlen, decide_True, Bool.true_and, decide_eq_true_eq]
      simpa [Effect.calls] using hp
    · have hn : info.length ≠ 1 := hlen
      rw [if_pos hn, if_pos hn]
      simp
  | fnSelectBucket info ec =>
    simp only [Connection.step, Connection.Event.registers]
    rw [fnSelectBucket_state, fnSelectBucket_effects]
    by_cases hc : info.length ≠ 2 ∨ (info.getD 0 JsValue.undefined).IsString = false
    · rw [if_pos hc, if_pos hc]
      simp
    · have hp := pending_set_open me ck
        { name := "open", callback := info.getD 1 JsValue.undefined }
      rw [if_neg hc, if_neg hc, List.countP_append, delete_cookie_countP]
      have hlen : info.length = 2 := by
        by_contra h; exact hc (Or.inl h)
      have hs : (info.getD 0 JsValue.undefined).IsString = true := by
        cases h : (info.getD 0 JsValue.undefined).IsString
        · exact absurd (Or.inr h) hc
        · rfl
      simp only [hlen, hs, decide_True, Bool.true_and, decide_eq_true_eq]
      simpa [Effect.calls] using hp
  | lcbBootstapHandler inst err =>
    simp only [Connection.step, Connection.lcbBootstapHandler, Connection.Event.registers]
    by_cases herr : err = 0 <;> cases hb : me._bootstrapCookie with
    | none => simp [herr, hb, Connection.pending, Effect.calls]
    | some c =>
      by_cases hc : c = ck <;>
        simp [herr, hb, hc, Connection.pending, Effect.calls, List.countP_cons]
  | lcbOpenHandler inst err =>
    simp only [Connection.step, Connection.lcbOpenHandler, Connection.Event.registers]
    cases ho : me._openCookie with
    | none => simp [ho, Connection.pending]
    | some c =>
      by_cases hc : c = ck
      · simp [ho, hc, Connection.pending, Effect.calls, List.countP_cons]
        omega
      · simp [ho, hc, Connection.pending, Effect.calls, List.countP_cons]

/-- Along a sequence of events: the invocations of `ck` plus the slots in
which `ck` is pending at the end do not exceed the slots in which it was
pending at the start plus the number of events that register `ck`. -/
theorem run_calls_pending (K : lcb_h) (ck : Cookie) (evs : List Connection.Event) :
    ∀ me : Connection,
      (Connection.run K me evs).2.countP (Effect.calls ck)
          + Connection.pending (Connection.run K me evs).1 ck
        ≤ Connection.pending me ck + evs.countP (Connection.Event.registers ck) := by
  induction evs with
  | nil => intro me; simp [Connection.run]
  | cons ev evs ih =>
    intro me
    have h1 := step_calls_pending K me ck ev
    have h2 := ih (Connection.step K me ev).1
    simp only [Connection.run, List.countP_append, List.countP_cons]
    omega

/-- C12: a completion callback registered on a connection is delivered at
most once.  With a connect cookie `ck` pending, `lcbBootstapHandler` invokes
exactly `ck`, once, with the error built from the bootstrap status, and
clears the slot, so a further bootstrap event invokes nothing; likewise
`lcbOpenHandler` and the open cookie.  Along every sequence of `fnConnect` /
`fnSelectBucket` calls and bootstrap / open events on a new connection, a
cookie is invoked at most as often as it was registered. -/
theorem C12_callback_delivered_at_most_once (K : lcb_h) (me : Connection) (ck : Cookie)
    (inst inst2 : Nat) (err err2 : Int) (i l : Option Nat) (evs : List Connection.Event) :
    ((Connection.lcbBootstapHandler K { me with _bootstrapCookie := some ck } inst err).2.filter
        Effect.is_Cookie_Call = [Effect.Cookie_Call ck (JsValue.error_status err)] ∧
     (Connection.lcbBootstapHandler K { me with _bootstrapCookie := some ck } inst
        err).1._bootstrapCookie = none ∧
     (Connection.lcbBootstapHandler K
        (Connection.lcbBootstapHandler K { me with _bootstrapCookie := some ck } inst err).1
        inst2 err2).2.filter Effect.is_Cookie_Call = []) ∧
    ((Connection.lcbOpenHandler { me with _openCookie := some ck } inst err).2.filter
        Effect.is_Cookie_Call = [Effect.Cookie_Call ck (JsValue.error_status err)] ∧
     (Connection.lcbOpenHandler { me with _openCookie := some ck } inst err).1._openCookie
        = none ∧
     (Connection.lcbOpenHandler
        (Connection.lcbOpenHandler { me with _openCookie := some ck } inst err).1
        inst2 err2).2.filter Effect.is_Cookie_Call = []) ∧
    (Connection.run K (Connection.new i l) evs).2.countP (Effect.calls ck)
      ≤ evs.countP (Connection.Event.registers ck) ∧
    (Connection.run K me evs).2.countP (Effect.calls ck)
        + Connection.pending (Connection.run K me evs).1 ck
      ≤ Connection.pending me ck + evs.countP (Connection.Event.registers ck) := by
  refine ⟨⟨?_, ?_, ?_⟩, ⟨rfl, rfl, rfl⟩, ?_, run_calls_pending K ck evs me⟩
  · by_cases h : err = 0 <;>
      simp [Connection.lcbBootstapHandler, h, Effect.is_Cookie_Call]
  · by_cases h : err = 0 <;> simp [Connection.lcbBootstapHandler, h]
  · by_cases h : err = 0 <;> by_cases h2 : err2 = 0 <;>
      simp [Connection.lcbBootstapHandler, h, h2, Effect.is_Cookie_Call]
  · have h := run_calls_pending K ck evs (Connection.new i l)
    have h0 : Connection.pending (Connection.new i l) ck = 0 := by
      simp [Connection.pending, Connection.new]
    omega

/-- C13 (as stated, refuted): a connect callback that is pending when
`fnConnect` is called again, or when the connection is destroyed, is released
without being invoked: the calls made are the `delete` of the cookie and the
library calls, and no `Call`. -/
theorem C13_pending_cookie_dropped :
    (Connection.fnConnect lcb_h.sample (Connection.new (some 1) none)
        [JsValue.function 7] 0).2.1._bootstrapCookie
      = some { name := "connect", callback := JsValue.function 7 } ∧
    (Connection.fnConnect lcb_h.sample
        (Connection.fnConnect lcb_h.sample (Connection.new (some 1) none)
          [JsValue.function 7] 0).2.1
        [JsValue.function 8] 0).2.2
      = [Effect.Cookie_delete { name := "connect", callback := JsValue.function 7 },
         Effect.lcb_connect (some 1)] ∧
    (Connection.dtor
        (Connection.fnConnect lcb_h.sample (Connection.new (some 1) none)
          [JsValue.function 7] 0).2.1).2
      = [Effect.uv_prepare_stop, Effect.uv_close, Effect.lcb_destroy 1,
         Effect.Cookie_delete { name := "connect", callback := JsValue.function 7 }] ∧
    (Connection.fnSelectBucket lcb_h.sample
        (Connection.fnSelectBucket lcb_h.sample (Connection.new (some 1) none)
          [JsValue.string "b", JsValue.function 7] 0).2.1
        [JsValue.string "b", JsValue.function 8] 0).2.2
      = [Effect.Cookie_delete { name := "open", callback := JsValue.function 7 },
         Effect.lcb_open (some 1) "b"] := by
  decide

/-- C13 (amended): tearing down or replacing releases a pending cookie
without notifying it.  The destructor, `fnConnect` and `fnSelectBucket` invoke
no callback; a connect or open cookie pending when the connection is
destroyed is deleted, and so is a connect (open) cookie pending when
`fnConnect` (`fnSelectBucket`) gets past its argument checks, which then
leaves the new cookie pending.  `fnShutdown`, `uvFlushHandler` and `fnCntl`
invoke no callback either, so only the two handlers do. -/
theorem C13_teardown_drops_pending_cookie (K : lcb_h) (me : Connection) (ck : Cookie)
    (info : List JsValue) (f b : JsValue) (bucket : String) (ec : Int)
    (lcb_cntl : Option Nat → Int → Int → Option Int → Int × Int) (mode option arg2 : Int) :
    ((Connection.dtor me).2.filter Effect.is_Cookie_Call = [] ∧
     (Connection.fnConnect K me info ec).2.2.filter Effect.is_Cookie_Call = [] ∧
     (Connection.fnSelectBucket K me info ec).2.2.filter Effect.is_Cookie_Call = []) ∧
    (Effect.Cookie_delete ck ∈ (Connection.dtor { me with _bootstrapCookie := some ck }).2 ∧
     Effect.Cookie_delete ck ∈ (Connection.dtor { me with _openCookie := some ck }).2 ∧
     (Connection.dtor me).1._bootstrapCookie = none ∧
     (Connection.dtor me).1._openCookie = none) ∧
    ((Connection.fnConnect K { me with _bootstrapCookie := some ck } [f] ec).2.2
        = [Effect.Cookie_delete ck, Effect.lcb_connect me._instance] ∧
     (Connection.fnConnect K { me with _bootstrapCookie := some ck } [f] ec).2.1._bootstrapCookie
        = some { name := "connect", callback := f }) ∧
    ((Connection.fnSelectBucket K { me with _openCookie := some ck }
          [JsValue.string bucket, b] ec).2.2
        = [Effect.Cookie_delete ck, Effect.lcb_open me._instance bucket] ∧
     (Connection.fnSelectBucket K { me with _openCookie := some ck }
          [JsValue.string bucket, b] ec).2.1._openCookie
        = some { name := "open", callback := b }) ∧
    ((Connection.fnShutdown me).2.2.filter Effect.is_Cookie_Call = [] ∧
     (Connection.uvFlushHandler me).filter Effect.is_Cookie_Call = [] ∧
     (Connection.fnCntl K lcb_cntl me mode option arg2).2.filter Effect.is_Cookie_Call
        = []) := by
  refine ⟨⟨?_, ?_, ?_⟩, ⟨?_, ?_, rfl, rfl⟩, ⟨?_, ?_⟩, ⟨?_, ?_⟩, ⟨?_, rfl, ?_⟩⟩
  · unfold Connection.dtor
    cases me._flushWatch <;> cases me._instance <;> cases me._logger <;>
      cases me._clientStringCache <;> cases me._bootstrapCookie <;>
      cases me._openCookie <;> rfl
  · rw [fnConnect_effects]
    split
    · rfl
    · simp [List.filter_append, delete_cookie_no_call, Effect.is_Cookie_Call]
  · rw [fnSelectBucket_effects]
    split
    · rfl
    · simp [List.filter_append, delete_cookie_no_call, Effect.is_Cookie_Call]
  · simp [Connection.dtor, Connection.delete_cookie]
  · simp [Connection.dtor, Connection.delete_cookie]
  · rw [fnConnect_effects]; simp [Connection.delete_cookie]
  · rw [fnConnect_state]; simp
  · rw [fnSelectBucket_effects]
    simp [Connection.delete_cookie, JsValue.IsString, JsValue.Utf8String]
  · rw [fnSelectBucket_state]; simp [JsValue.IsString]
  · unfold Connection.fnShutdown
    cases hi : me._instance <;> simp [hi, Effect.is_Cookie_Call]
  · unfold Connection.fnCntl
    cases hfmt : getCntlFormat K option
    · simp
    · by_cases hm : mode = K.LCB_CNTL_GET
      · subst hm
        by_cases hs : (lcb_cntl me._instance K.LCB_CNTL_GET option none).1 = K.LCB_SUCCESS <;>
          simp [hs, Effect.is_Cookie_Call]
      · by_cases hs : (lcb_cntl me._instance mode option (some arg2)).1 = K.LCB_SUCCESS <;>
          simp [hm, hs, Effect.is_Cookie_Call]

/-! ## Connection: control options and the bootstrap transition -/

/-- C19 (as stated, refuted): for the time-valued option `LCB_CNTL_OP_TIMEOUT`
and mode `LCB_CNTL_GET`, when `lcb_cntl` reports a status other than
`LCB_SUCCESS` (here 1, leaving 7 behind the pointer), `fnCntl` throws the
error built from that status and returns no value. -/
theorem C19_get_throws_on_lcb_cntl_error :
    getCntlFormat lcb_h.sample lcb_h.sample.LCB_CNTL_OP_TIMEOUT = CntlFormat.CntlTimeValue ∧
    Connection.fnCntl lcb_h.sample (fun _ _ _ _ => (1, 7)) (Connection.new (some 1) none)
        lcb_h.sample.LCB_CNTL_GET lcb_h.sample.LCB_CNTL_OP_TIMEOUT 0
      = (NanResult.thrown (JsValue.error_status 1),
         [Effect.lcb_cntl (some 1) lcb_h.sample.LCB_CNTL_GET
            lcb_h.sample.LCB_CNTL_OP_TIMEOUT none]) ∧
    (Connection.fnCntl lcb_h.sample (fun _ _ _ _ => (1, 7)) (Connection.new (some 1) none)
        lcb_h.sample.LCB_CNTL_GET lcb_h.sample.LCB_CNTL_OP_TIMEOUT 0).1
      ≠ NanResult.returned (JsValue.number 7) := by
  decide

/-- C19 (amended): `getCntlFormat(option)` is `CntlTimeValue` exactly for the
eight time-valued options and `CntlInvalid` for every other integer.
`fnCntl` throws "unexpected cntl cmd" without calling `lcb_cntl` for every
other option.  For a time-valued option it calls `lcb_cntl` once: in mode
`LCB_CNTL_GET` it reads the value and returns it when `lcb_cntl` reports
`LCB_SUCCESS`; in every other mode it passes the third argument and returns
no value when `lcb_cntl` reports `LCB_SUCCESS`; in both modes it throws the
error built from the status when `lcb_cntl` reports another status. -/
theorem C19_cntl_format_and_dispatch (K : lcb_h)
    (lcb_cntl : Option Nat → Int → Int → Option Int → Int × Int)
    (me : Connection) (mode option arg2 : Int) :
    (getCntlFormat K option = CntlFormat.CntlTimeValue ↔
      (option = K.LCB_CNTL_CONFIGURATION_TIMEOUT ∨ option = K.LCB_CNTL_VIEW_TIMEOUT ∨
       option = K.LCB_CNTL_QUERY_TIMEOUT ∨ option = K.LCB_CNTL_HTTP_TIMEOUT ∨
       option = K.LCB_CNTL_DURABILITY_INTERVAL ∨ option = K.LCB_CNTL_DURABILITY_TIMEOUT ∨
       option = K.LCB_CNTL_OP_TIMEOUT ∨ option = K.LCB_CNTL_CONFDELAY_THRESH)) ∧
    (getCntlFormat K option = CntlFormat.CntlInvalid ↔
      ¬ (option = K.LCB_CNTL_CONFIGURATION_TIMEOUT ∨ option = K.LCB_CNTL_VIEW_TIMEOUT ∨
         option = K.LCB_CNTL_QUERY_TIMEOUT ∨ option = K.LCB_CNTL_HTTP_TIMEOUT ∨
         option = K.LCB_CNTL_DURABILITY_INTERVAL ∨ option = K.LCB_CNTL_DURABILITY_TIMEOUT ∨
         option = K.LCB_CNTL_OP_TIMEOUT ∨ option = K.LCB_CNTL_CONFDELAY_THRESH)) ∧
    Connection.fnCntl K lcb_cntl me mode option arg2
      = (if getCntlFormat K option = CntlFormat.CntlInvalid then
           (NanResult.thrown (JsValue.error_message "unexpected cntl cmd"), [])
         else if mode = K.LCB_CNTL_GET then
           (if (lcb_cntl me._instance mode option none).1 = K.LCB_SUCCESS
              then NanResult.returned (JsValue.number (lcb_cntl me._instance mode option none).2)
              else NanResult.thrown
                (JsValue.error_status (lcb_cntl me._instance mode option none).1),
            [Effect.lcb_cntl me._instance mode option none])
         else
           (if (lcb_cntl me._instance mode option (some arg2)).1 = K.LCB_SUCCESS
              then NanResult.returned JsValue.undefined
              else NanResult.thrown
                (JsValue.error_status (lcb_cntl me._instance mode option (some arg2)).1),
            [Effect.lcb_cntl me._instance mode option (some arg2)])) := by
  refine ⟨?_, ?_, ?_⟩
  · unfold getCntlFormat
    split <;> simp_all
  · unfold getCntlFormat
    split <;> simp_all
  · unfold Connection.fnCntl
    cases hfmt : getCntlFormat K option
    · simp
    · by_cases hm : mode = K.LCB_CNTL_GET
      · subst hm
        by_cases hs : (lcb_cntl me._instance K.LCB_CNTL_GET option none).1 = K.LCB_SUCCESS <;>
          simp [hs]
      · by_cases hs : (lcb_cntl me._instance mode option (some arg2)).1 = K.LCB_SUCCESS <;>
          simp [hm, hs]

/-- C20: the transition of `lcbBootstapHandler` on a bootstrap result `err`.
If `err` is not zero the bootstrap callback is replaced by an empty one, the
instance is handed to `lcb_destroy_async`, `_instance` becomes null and the
flush watcher is neither started nor changed.  If `err` is zero `_instance`
is kept, the flush watcher is started with `uvFlushHandler` (which flushes the
instance) and implicit flushing is set to 0.  In both cases the pending
connect callback, if any, is the one callback invoked, with the error built
from `err`, and no connect callback is pending afterwards. -/
theorem C20_bootstrap_transition (K : lcb_h) (me : Connection) (inst : Nat) (err : Int) :
    (Connection.lcbBootstapHandler K me inst err).1._instance
      = (if err ≠ 0 then none else me._instance) ∧
    (Connection.lcbBootstapHandler K me inst err).1._flushWatch
      = (if err ≠ 0 then me._flushWatch
         else me._flushWatch.map (fun w => { w with active := true })) ∧
    (Connection.lcbBootstapHandler K me inst err).2.filter (fun e => !e.is_Cookie_Call)
      = (if err ≠ 0 then
           [Effect.lcb_set_bootstrap_callback_empty inst, Effect.lcb_destroy_async inst]
         else
           [Effect.uv_prepare_start_uvFlushHandler,
            Effect.lcb_cntl (some inst) K.LCB_CNTL_SET K.LCB_CNTL_SCHED_IMPLICIT_FLUSH
              (some 0)]) ++ Connection.delete_cookie me._bootstrapCookie ∧
    (Effect.lcb_destroy_async inst ∈ (Connection.lcbBootstapHandler K me inst err).2
      ↔ err ≠ 0) ∧
    (Effect.uv_prepare_start_uvFlushHandler ∈ (Connection.lcbBootstapHandler K me inst err).2
      ↔ err = 0) ∧
    Connection.uvFlushHandler me = [Effect.lcb_sched_flush me._instance] ∧
    (Connection.lcbBootstapHandler K me inst err).2.filter Effect.is_Cookie_Call
      = (match me._bootstrapCookie with
         | some ck => [Effect.Cookie_Call ck (JsValue.error_status err)]
         | none => []) ∧
    (Connection.lcbBootstapHandler K me inst err).1._bootstrapCookie = none := by
  unfold Connection.lcbBootstapHandler
  by_cases h : err = 0 <;> cases hb : me._bootstrapCookie <;>
    simp [h, hb, Effect.is_Cookie_Call, Connection.delete_cookie, Connection.uvFlushHandler]

/-! ## HTTP requests: cancellation and teardown -/

/-- Cancelling a request leaves any request that is not outstanding as it is. -/
theorem cancel_entry_idem (handle : Nat) (r : Nat × request_state) :
    (fun r : Nat × request_state =>
        if r.1 = handle ∧ r.2 = request_state.in_flight
          then (r.1, request_state.cancelled) else r)
      ((fun r : Nat × request_state =>
        if r.1 = handle ∧ r.2 = request_state.in_flight
          then (r.1, request_state.cancelled) else r) r)
    = (fun r : Nat × request_state =>
        if r.1 = handle ∧ r.2 = request_state.in_flight
          then (r.1, request_state.cancelled) else r) r := by
  by_cases h : r.1 = handle ∧ r.2 = request_state.in_flight
  · simp [h]
  · simp [h]

/-- C14: cancellation is idempotent.  For every instance and request handle a
second `lcb_http_cancel` changes nothing, and a cancellation invokes no
callback and fails no expectation.  In `testDoubleCancel` the final response
is delivered once, the two cancellations in its callback leave the request
completed, and no expectation fails. -/
theorem C14_double_cancel_is_noop (I : lcb_INSTANCE) (handle : Nat) :
    lcb_http_cancel (lcb_http_cancel I handle) handle = lcb_http_cancel I handle ∧
    (lcb_http_cancel I handle).notifications = I.notifications ∧
    (lcb_http_cancel I handle).test_failures = I.test_failures ∧
    (lcb_http_cancel I handle).callback = I.callback ∧
    testDoubleCancel.notifications = [(0, true)] ∧
    testDoubleCancel.requests = [(0, request_state.completed)] ∧
    testDoubleCancel.test_failures = 0 := by
  refine ⟨?_, rfl, rfl, rfl, by decide, by decide, by decide⟩
  unfold lcb_http_cancel
  simp only [List.map_map]
  congr 1
  apply List.map_congr_left
  intro r _
  exact cancel_entry_idem handle r

/-- The calls made by one `fnShutdown`: the flush watcher is stopped, and the
instance is handed to `lcb_destroy_async` only when `_instance` is not null. -/
theorem fnShutdown_effects (me : Connection) :
    (Connection.fnShutdown me).2.2
      = (match me._instance with
         | some i => [Effect.uv_prepare_stop, Effect.lcb_destroy_async i]
         | none => [Effect.uv_prepare_stop]) := by
  unfold Connection.fnShutdown
  cases h : me._instance <;> simp [h]

/-- The connection after one `fnShutdown`: the flush watcher is stopped and
`_instance` is null; nothing else changes. -/
theorem fnShutdown_state (me : Connection) :
    (Connection.fnShutdown me).2.1
      = { me with _instance := none,
                  _flushWatch := me._flushWatch.map (fun w => { w with active := false }) } := by
  unfold Connection.fnShutdown
  cases h : me._instance <;> simp [h]

/-- A sequence of shutdown calls on a connection whose `_instance` is null
never calls `lcb_destroy_async`. -/
theorem fnShutdown_times_null (n : Nat) :
    ∀ me : Connection, me._instance = none →
      (Connection.fnShutdown_times me n).2.countP Effect.is_lcb_destroy_async = 0 := by
  induction n with
  | zero => intro me _; rfl
  | succ n ih =>
    intro me h
    have h1 : (Connection.fnShutdown me).2.1._instance = none := by
      rw [fnShutdown_state]
    simp only [Connection.fnShutdown_times, List.countP_append, ih _ h1, fnShutdown_effects, h]
    rfl

/-- C21: `fnShutdown` is idempotent on the connection state.  Over every
sequence of shutdown calls `lcb_destroy_async` is requested at most once:
once when the sequence is not empty and `_instance` was not null, never
otherwise; one call requests it only while `_instance` is not null and leaves
`_instance` null; the state after two calls is the state after one; and a
shutdown after a failed bootstrap (`err` not zero), which already cleared
`_instance`, only stops the flush watcher. -/
theorem C21_shutdown_idempotent (K : lcb_h) (me : Connection) (n inst : Nat) (err : Int)
    (herr : err ≠ 0) :
    (Connection.fnShutdown_times me n).2.countP Effect.is_lcb_destroy_async ≤ 1 ∧
    (Connection.fnShutdown_times me n).2.countP Effect.is_lcb_destroy_async
      = (if 0 < n ∧ me._instance ≠ none then 1 else 0) ∧
    (Connection.fnShutdown me).2.2
      = (match me._instance with
         | some i => [Effect.uv_prepare_stop, Effect.lcb_destroy_async i]
         | none => [Effect.uv_prepare_stop]) ∧
    (Connection.fnShutdown me).2.1._instance = none ∧
    (Connection.fnShutdown (Connection.fnShutdown me).2.1).2.1 = (Connection.fnShutdown me).2.1 ∧
    (Connection.fnShutdown (Connection.fnShutdown me).2.1).2.2 = [Effect.uv_prepare_stop] ∧
    (Connection.lcbBootstapHandler K me inst err).1._instance = none ∧
    (Connection.fnShutdown (Connection.lcbBootstapHandler K me inst err).1).2.2
      = [Effect.uv_prepare_stop] := by
  have hnull : (Connection.fnShutdown me).2.1._instance = none := by
    rw [fnShutdown_state]
  have hcount : (Connection.fnShutdown_times me n).2.countP Effect.is_lcb_destroy_async
      = (if 0 < n ∧ me._instance ≠ none then 1 else 0) := by
    cases n with
    | zero => simp [Connection.fnShutdown_times]
    | succ n =>
      simp only [Connection.fnShutdown_times, List.countP_append,
        fnShutdown_times_null n _ hnull, fnShutdown_effects]
      cases h : me._instance <;> simp [Effect.is_lcb_destroy_async, List.countP_cons]
  have hboot : (Connection.lcbBootstapHandler K me inst err).1._instance = none := by
    unfold Connection.lcbBootstapHandler
    cases hb : me._bootstrapCookie <;> simp [herr, hb]
  refine ⟨?_, hcount, fnShutdown_effects me, hnull, ?_, ?_, hboot, ?_⟩
  · rw [hcount]; split <;> omega
  · rw [fnShutdown_state, fnShutdown_state]
    cases hw : me._flushWatch <;> simp [hw]
  · rw [fnShutdown_effects, hnull]
  · rw [fnShutdown_effects, hboot]

/-- Witness for C21: a new connection on instance 1 whose bootstrap fails
with status 2, then shut down three times. -/
theorem C21_shutdown_idempotent_witness :
    (2 : Int) ≠ 0 ∧
    (Connection.fnShutdown_times (Connection.new (some 1) none) 3).2.countP
        Effect.is_lcb_destroy_async = 1 ∧
    (Connection.fnShutdown
        (Connection.lcbBootstapHandler lcb_h.sample (Connection.new (some 1) none) 1 2).1).2.2
      = [Effect.uv_prepare_stop] :=
  ⟨by decide,
   (C21_shutdown_idempotent lcb_h.sample (Connection.new (some 1) none) 3 1 2 (by decide)).2.1,
   (C21_shutdown_idempotent lcb_h.sample (Connection.new (some 1) none) 3 1 2
      (by decide)).2.2.2.2.2.2.2⟩
